import Mathlib

/-!
Shallow embedding of `src/plugin.py` (harness-kubernetes-sa-rotation).

The program is a single-shot rotation orchestrator.  Its effectful
collaborators are modelled explicitly:

* the process environment is an association list `Env` (first binding wins,
  like `os.getenv`);
* the Kubernetes namespace content is a list of `SecretInfo` records
  (names are unique in a real cluster, which the model does not need to
  assume);
* the asynchronous population of a service-account token is an oracle
  `poll : Nat → Option String` giving the decoded token material visible at
  the i-th read of the token secret inside the wait loop;
* the remote secret manager's reaction to the one PUT and (possibly) one
  POST of a run is a `RemoteBehavior` record: HTTP status of each call and
  the shape of the PUT's error body as seen by `response.json()` /
  `data.get("message")`;
* other cluster API failures (list/create/delete) are fault oracles, so that
  e.g. a delete that raises can be expressed;
* every external call is recorded in an event trace, on which the temporal
  claims are stated.

`requests.Response.raise_for_status` raises exactly for status codes in
[400, 600); the model uses `400 ≤ status` as "raises" since larger codes do
not occur.  Base64 transport encoding, HTTP payload construction, label
dictionaries and log lines are pure data-plumbing with no observable effect
on any claim and are not modelled.
-/

/-- One observable external call of a run. -/
inductive Event
  /-- `list_namespaced_secret` (the Discover step), with the search string. -/
  | listSecrets (search : String)
  /-- `create_namespaced_secret` for the new token secret. -/
  | createToken (name : String)
  /-- `read_namespaced_secret` of the token secret. -/
  | readToken (name : String)
  /-- `time.sleep(1)` inside the readiness poll. -/
  | sleep
  /-- `PUT .../secrets/SECRET_IDENTIFIER` (update_harness_secret). -/
  | putRemote (ident : String)
  /-- `POST .../secrets` (create_harness_secret). -/
  | postRemote (ident : String)
  /-- `delete_namespaced_secret` (delete_k8s_secret). -/
  | deleteSecret (name : String)
deriving DecidableEq

def Event.isDelete : Event → Bool
  | .deleteSecret _ => true
  | _ => false

def Event.isPut : Event → Bool
  | .putRemote _ => true
  | _ => false

def Event.isPost : Event → Bool
  | .postRemote _ => true
  | _ => false

def Event.isReadToken : Event → Bool
  | .readToken _ => true
  | _ => false

/-- `True` while no `deleteSecret` has been seen before the first `putRemote`
of the trace: scanning left to right, every event strictly before the first
remote update is not a deletion. -/
def deletesOnlyAfterPut : List Event → Bool
  | [] => true
  | e :: l => if e.isPut then true else !e.isDelete && deletesOnlyAfterPut l

/-- The process environment: variable-to-value bindings. -/
def Env : Type := List (String × String)

/-- `os.getenv`: first binding of the variable, if any. -/
def getenv (env : Env) (varName : String) : Option String :=
  (List.find? (fun p => p.1 == varName) env).map (fun p => p.2)

/-- `check_env(variable, default)` from `src/plugin.py`: resolve the
variable; fall back to the default; if the result is `None` print the
variable and `exit(1)`.  The `SystemExit` of `exit(1)` is modelled as the
`.error` case carrying the variable name (it is not an `Exception`, so the
publish-stage `except Exception` in `main` does not catch it). -/
def check_env (env : Env) (varName : String) (default : Option String) :
    Except String String :=
  match getenv env varName with
  | some v => .ok v
  | none =>
    match default with
    | some d => .ok d
    | none => .error varName

/-- Metadata of one Kubernetes secret, as surfaced by `list_k8s_secrets`
(creation timestamp omitted: no claim and no branch of the program reads
it). -/
structure SecretInfo where
  name : String
  type_ : String
  dataKeys : List String
deriving DecidableEq

/-- `pat` is an initial segment of the character list. -/
def listStartsWithChars : List Char → List Char → Bool
  | _, [] => true
  | [], _ :: _ => false
  | c :: s, d :: t => c == d && listStartsWithChars s t

/-- `pat` occurs as a contiguous segment of the character list. -/
def listHasSubChars (pat : List Char) : List Char → Bool
  | [] => pat.isEmpty
  | c :: s => listStartsWithChars (c :: s) pat || listHasSubChars pat s

/-- Python's `sub in s`: `sub` occurs contiguously somewhere in `s`
(trivially true for empty `sub`). -/
def hasSubstr (s sub : String) : Bool :=
  listHasSubChars sub.data s.data

/-- Python's `str.lower()` on the ASCII range (the range secret names and
search strings draw from). -/
def lowerChar (c : Char) : Char :=
  if 65 ≤ c.toNat ∧ c.toNat ≤ 90 then Char.ofNat (c.toNat + 32) else c

def lowerStr (s : String) : String :=
  ⟨s.data.map lowerChar⟩

/-- `list_k8s_secrets(namespace, search_string)`: keep the secrets whose
name contains the search string case-insensitively; an empty search keeps
everything (the code's `if not search_string or search_lower in
secret_name.lower()`). -/
def list_k8s_secrets (cluster : List SecretInfo) (search : String) :
    List SecretInfo :=
  cluster.filter (fun s => search == "" || hasSubstr (lowerStr s.name) (lowerStr search))

/-- `delete_k8s_secret(namespace, secret_name)`.  The underlying
`delete_namespaced_secret` raises `ApiException` with status 404 when the
secret is absent, and may raise with another status (permissions, server
error, a concurrent external deletion...), modelled by the fault oracle
`flt`.  The Python wrapper prints and RE-RAISES every `ApiException`, so the
model returns `.error status` in both cases; success removes the secret. -/
def delete_k8s_secret (flt : String → Option Nat) (cluster : List SecretInfo)
    (name : String) : Except Nat (List SecretInfo) :=
  match flt name with
  | some st => .error st
  | none =>
    if cluster.any (fun s => s.name == name) then
      .ok (cluster.filter (fun s => !(s.name == name)))
    else .error 404

/-- What `update_harness_secret` sees when it inspects the failed PUT's
body: `response.json()` raises (`invalid`), parses but `data.get("message")`
returns `None` (`noMessage`), or yields a message string. -/
inductive JsonBody
  | invalid
  | noMessage
  | message (m : String)
deriving DecidableEq

/-- The remote secret manager's fixed reaction to the single run: HTTP
status answered to the PUT (update), the PUT's error-body shape, and the
HTTP status answered to the POST (create) should one be made. -/
structure RemoteBehavior where
  updateStatus : Nat
  updateBody : JsonBody
  createStatus : Nat
deriving DecidableEq

/-- The exception escaping the publish step, by provenance:
`updateHttpError` is `raise e` (the PUT's HTTPError), `createHttpError` the
POST's HTTPError re-raised as `f`, `jsonError` a failed `response.json()`
re-raised as `f`, `typeError` the `TypeError` of testing membership in
`None` re-raised as `f`. -/
inductive UpsertError
  | updateHttpError (status : Nat)
  | createHttpError (status : Nat)
  | jsonError
  | typeError
deriving DecidableEq

/-- Outcome of the publish step as seen by `main`: returned `True`, raised
an `Exception` (caught by `main`), or hit `exit(1)` inside `check_env`
(a `SystemExit`, which `except Exception` does not catch). -/
inductive PublishResult
  | ok
  | raised (e : UpsertError)
  | configExit (varName : String)
deriving DecidableEq

def PublishResult.isOk : PublishResult → Bool
  | .ok => true
  | _ => false

/-- `create_harness_secret`: resolves `PLUGIN_HARNESS_URL` (has a default,
cannot exit) and `PLUGIN_HARNESS_PLATFORM_API_KEY` (required) while
building the request, then POSTs; `raise_for_status` re-raises any non-2xx
answer after printing the body. -/
def create_harness_secret (env : Env) (remote : RemoteBehavior)
    (ident : String) : PublishResult × List Event :=
  match check_env env "PLUGIN_HARNESS_PLATFORM_API_KEY" none with
  | .error v => (.configExit v, [])
  | .ok _ =>
    if remote.createStatus < 400 then (.ok, [.postRemote ident])
    else (.raised (.createHttpError remote.createStatus), [.postRemote ident])

/-- `update_harness_secret`: resolves the URL (defaulted) and the required
API key while building the request, PUTs, and on `raise_for_status` failure
inspects the body: if it is JSON whose `"message"` contains the exact
substring `"No such secret found"`, falls back to exactly one
`create_harness_secret` call whose outcome (success or exception) is
returned/raised as is; a body that fails to parse or has no `"message"`
raises the secondary error `f`; any other message re-raises the original
HTTP error `e`. -/
def update_harness_secret (env : Env) (remote : RemoteBehavior)
    (ident : String) : PublishResult × List Event :=
  match check_env env "PLUGIN_HARNESS_PLATFORM_API_KEY" none with
  | .error v => (.configExit v, [])
  | .ok _ =>
    if remote.updateStatus < 400 then (.ok, [.putRemote ident])
    else
      match remote.updateBody with
      | .invalid => (.raised .jsonError, [.putRemote ident])
      | .noMessage => (.raised .typeError, [.putRemote ident])
      | .message m =>
        if hasSubstr m "No such secret found" then
          match create_harness_secret env remote ident with
          | (r, ev) => (r, .putRemote ident :: ev)
        else (.raised (.updateHttpError remote.updateStatus), [.putRemote ident])

/-- Failure of the Issue step: the initial `create_namespaced_secret`
raised with a non-409 status, or the bounded poll ran out
(`Exception("Token not populated after 10 seconds")`). -/
inductive IssueError
  | createApiError (status : Nat)
  | tokenNotReady
deriving DecidableEq

/-- Result of `create_service_account_token`, with the trace of its cluster
calls and the number of poll-loop read attempts / sleeps. -/
structure IssueRun where
  result : Except IssueError String
  events : List Event
  attempts : Nat
  sleeps : Nat

/-- The `for i in range(max_retries)` poll of `create_service_account_token`:
read the token secret; return the decoded `data["token"]` once present;
otherwise `time.sleep(1)` and retry; raise after `fuel` fruitless reads.
`poll i` is the token material the cluster exposes at the i-th read. -/
def pollLoop (name : String) (poll : Nat → Option String) :
    Nat → Nat → List Event → Nat → Nat → IssueRun
  | i, fuel + 1, acc, att, slp =>
    match poll i with
    | some tok => ⟨.ok tok, acc ++ [.readToken name], att + 1, slp⟩
    | none => pollLoop name poll (i + 1) fuel (acc ++ [.readToken name, .sleep]) (att + 1) (slp + 1)
  | _, 0, acc, att, slp => ⟨.error .tokenNotReady, acc, att, slp⟩

/-- `create_service_account_token(namespace, service_account, token_name)`:
create the `kubernetes.io/service-account-token` secret; a 409 conflict
(`conflict = true`: the name already exists in the cluster) is absorbed by
re-reading the secret; any other `ApiException` (fault oracle `flt`)
re-raises; then poll up to `max_retries = 10` times. -/
def create_service_account_token (flt : Option Nat) (conflict : Bool)
    (name : String) (poll : Nat → Option String) : IssueRun :=
  match flt with
  | some st => ⟨.error (.createApiError st), [.createToken name], 0, 0⟩
  | none =>
    if conflict then
      pollLoop name poll 0 10 [.createToken name, .readToken name] 0 0
    else
      pollLoop name poll 0 10 [.createToken name] 0 0

/-- The configuration resolved at the top of `main`, in source order.
`PLUGIN_HARNESS_ACCOUNT`, `PLUGIN_HARNESS_ORG` and `PLUGIN_HARNESS_PROJECT`
are passed no usable default (`check_env(var)` / `check_env(var, None)`),
so each is required to be SET (possibly to the empty string, which later
truthiness tests treat as "no scope").  `PLUGIN_SECRET_TAGS` is kept as its
raw string: `json.loads` of it is pure and no claim depends on it. -/
structure Config where
  ns : String
  serviceAccountName : String
  harnessAccount : String
  harnessOrg : String
  harnessProject : String
  secretIdentifier : String
  secretTags : String
deriving DecidableEq

/-- The `check_env` sequence of `main` lines 406-416, stopping at the first
required-but-absent variable (its `exit(1)`). -/
def resolveConfig (env : Env) : Except String Config := do
  let ns ← check_env env "PLUGIN_NAMESPACE" (some "harness-delegate-ng")
  let sa ← check_env env "PLUGIN_SERVICE_ACCOUNT_NAME" (some "harness-delegate-ng")
  let acct ← check_env env "PLUGIN_HARNESS_ACCOUNT" none
  let org ← check_env env "PLUGIN_HARNESS_ORG" none
  let proj ← check_env env "PLUGIN_HARNESS_PROJECT" none
  let ident ← check_env env "PLUGIN_SECRET_IDENTIFIER" (some sa)
  let tags ← check_env env "PLUGIN_SECRET_TAGS" (some "\x7b\x7d")
  .ok ⟨ns, sa, acct, org, proj, ident, tags⟩

/-- `new_token_name = f"SERVICE_ACCOUNT_NAME-CURRENT_UNIX_TIMESTAMP"`. -/
def tokenName (serviceAccountName : String) (ts : Nat) : String :=
  serviceAccountName ++ "-" ++ Nat.repr ts

/-- Result of the deletion loop: the first error (status and secret name)
if one was raised, the cluster as left behind, and the delete calls made. -/
structure CleanupRun where
  err : Option (Nat × String)
  cluster : List SecretInfo
  events : List Event

/-- The `for secret in secrets: delete_k8s_secret(...)` loop of `main`.
There is no `try` around it: the first raising deletion aborts the loop
(and, in `main`, the whole process). -/
def cleanupLoop (flt : String → Option Nat) :
    List SecretInfo → List SecretInfo → List Event → CleanupRun
  | [], cluster, acc => ⟨none, cluster, acc⟩
  | s :: rest, cluster, acc =>
    match delete_k8s_secret flt cluster s.name with
    | .ok cluster2 => cleanupLoop flt rest cluster2 (acc ++ [.deleteSecret s.name])
    | .error st => ⟨some (st, s.name), cluster, acc ++ [.deleteSecret s.name]⟩

/-- An uncaught exception escaping `main` (nonzero process exit, no outputs
written): Discover raised, Issue raised, or a cleanup deletion raised. -/
inductive FatalError
  | listFailed (status : Nat)
  | issueFailed (e : IssueError)
  | cleanupFailed (status : Nat) (name : String)
deriving DecidableEq

/-- How the process ends.  `configExit v` is `exit(1)` from `check_env`
(exit code 1); `fatal` an uncaught exception (nonzero exit); 
`publishSwallowed` is the `except Exception: logging.error(...); return`
branch around `update_harness_secret` — `main` returns normally, nothing
more runs, and the process exits with code 0; `success` carries the
key/value pairs handed to `write_outputs` and `write_secret_outputs`. -/
inductive MainOutcome
  | configExit (varName : String)
  | fatal (e : FatalError)
  | publishSwallowed
  | success (outputs : List (String × String)) (secretOutputs : List (String × String))
deriving DecidableEq

/-- The process exit code implied by each outcome (an uncaught Python
exception yields a nonzero code, modelled as 1). -/
def exitCode : MainOutcome → Nat
  | .configExit _ => 1
  | .fatal _ => 1
  | .publishSwallowed => 0
  | .success _ _ => 0

/-- One whole run: outcome, trace of external calls, final cluster. -/
structure MainRun where
  outcome : MainOutcome
  events : List Event
  cluster : List SecretInfo

/-- The value of `check_env("PLUGIN_DELETE_K8S_SECRETS", "")`: always
resolves (the default makes `check_env` total here); Python truthiness of
the resulting string gates the deletion loop. -/
def deleteFlag (env : Env) : String :=
  match check_env env "PLUGIN_DELETE_K8S_SECRETS" (some "") with
  | .ok v => v
  | .error _ => ""

/-- `main` lines 453-468, reached only after `update_harness_secret`
returned: resolve `PLUGIN_DELETE_K8S_SECRETS` (default `""`); a non-empty
value (Python truthiness) runs the deletion loop over the secrets
discovered in step 1; a raising deletion escapes `main` before any output
is written; otherwise the outputs are written and the run succeeds. -/
def cleanupStage (env : Env) (flt : String → Option Nat)
    (secrets : List SecretInfo) (cluster : List SecretInfo)
    (newTokenName ident token : String) (acc : List Event) : MainRun :=
  let flag := deleteFlag env
  if flag = "" then
    ⟨.success [("created_token", newTokenName), ("updated_secret", ident)]
      [("token", token)], acc, cluster⟩
  else
    let cl := cleanupLoop flt secrets cluster []
    match cl.err with
    | some (st, n) => ⟨.fatal (.cleanupFailed st n), acc ++ cl.events, cl.cluster⟩
    | none =>
      ⟨.success [("created_token", newTokenName), ("updated_secret", ident)]
        [("token", token)], acc ++ cl.events, cl.cluster⟩

/-- The Issue step as `main` invokes it: the conflict bit is the presence
of the derived token name in the cluster at creation time. -/
def issueOf (cfg : Config) (ts : Nat) (cluster0 : List SecretInfo)
    (poll : Nat → Option String) (createFault : Option Nat) : IssueRun :=
  create_service_account_token createFault
    (cluster0.any (fun s => s.name == tokenName cfg.serviceAccountName ts))
    (tokenName cfg.serviceAccountName ts) poll

/-- Cluster content after the Issue step: an actually fresh creation
appends the token secret, a 409 conflict or a failed create leaves the
cluster as it was. -/
def cluster1Of (cfg : Config) (ts : Nat) (cluster0 : List SecretInfo)
    (createFault : Option Nat) : List SecretInfo :=
  if createFault.isNone &&
      !(cluster0.any (fun s => s.name == tokenName cfg.serviceAccountName ts)) then
    cluster0 ++ [⟨tokenName cfg.serviceAccountName ts,
      "kubernetes.io/service-account-token", []⟩]
  else cluster0

/-- `main()`.  Inputs: environment, `int(time.time())`, initial cluster
content, the token-readiness oracle, the remote manager's behavior, and
fault oracles for Discover (`listFault`), the create of Issue
(`createFault`) and Cleanup deletions (`deleteFault`).

Faithful ordering: config resolution (may exit) strictly precedes the
Discover call; Issue precedes Publish; `PLUGIN_SECRET_DESCRIPTION` /
`PLUGIN_SECRET_MANAGER` / `PLUGIN_HARNESS_URL` are resolved at Publish time
but all carry defaults, so only `PLUGIN_HARNESS_PLATFORM_API_KEY` (resolved
inside `update_harness_secret` / `create_harness_secret`) can end the
process there.  A 409 on the create of Issue is determined by the presence
of the derived name in the cluster; an actually-created secret is appended
to the cluster state. -/
def mainRun (env : Env) (ts : Nat) (cluster0 : List SecretInfo)
    (poll : Nat → Option String) (remote : RemoteBehavior)
    (listFault : Option Nat) (createFault : Option Nat)
    (deleteFault : String → Option Nat) : MainRun :=
  match resolveConfig env with
  | .error v => ⟨.configExit v, [], cluster0⟩
  | .ok cfg =>
    match listFault with
    | some st => ⟨.fatal (.listFailed st), [.listSecrets cfg.serviceAccountName], cluster0⟩
    | none =>
      let secrets := list_k8s_secrets cluster0 cfg.serviceAccountName
      let ev0 : List Event := [.listSecrets cfg.serviceAccountName]
      let issue := issueOf cfg ts cluster0 poll createFault
      let cluster1 := cluster1Of cfg ts cluster0 createFault
      match issue.result with
      | .error e => ⟨.fatal (.issueFailed e), ev0 ++ issue.events, cluster1⟩
      | .ok token =>
        let pub := update_harness_secret env remote cfg.secretIdentifier
        let ev1 := ev0 ++ issue.events ++ pub.2
        match pub.1 with
        | .configExit v => ⟨.configExit v, ev1, cluster1⟩
        | .raised _ => ⟨.publishSwallowed, ev1, cluster1⟩
        | .ok =>
          cleanupStage env deleteFault secrets cluster1
            (tokenName cfg.serviceAccountName ts) cfg.secretIdentifier token ev1

/-! Decimal-representation facts: `Nat.repr` is injective, so the derived
token-secret name `tokenName sa ts` determines `ts` for a fixed service
account.  `Nat.repr n = (Nat.toDigitsCore 10 (n+1) n []).asString`; the
fueled core recursion is first related to a reference recursion
`decDigits`, which a base-10 valuation inverts. -/

/-- Decimal digits of `n`, most significant first. -/
def decDigits (n : Nat) : List Char :=
  if _ : n < 10 then [Nat.digitChar n]
  else decDigits (n / 10) ++ [Nat.digitChar (n % 10)]
decreasing_by exact Nat.div_lt_self (by omega) (by omega)

theorem toDigitsCore_accumulates (f : Nat) :
    ∀ (n : Nat) (ds : List Char),
      Nat.toDigitsCore 10 f n ds = Nat.toDigitsCore 10 f n [] ++ ds := by
  induction f with
  | zero => intro n ds; simp [Nat.toDigitsCore]
  | succ f ih =>
    intro n ds
    simp only [Nat.toDigitsCore]
    by_cases h : n / 10 = 0
    · simp [h]
    · simp only [h, if_false]
      rw [ih (n / 10) (Nat.digitChar (n % 10) :: ds),
        ih (n / 10) [Nat.digitChar (n % 10)], List.append_assoc]
      rfl

theorem toDigitsCore_eq_decDigits (f : Nat) :
    ∀ n : Nat, n < f → Nat.toDigitsCore 10 f n [] = decDigits n := by
  induction f with
  | zero => intro n h; omega
  | succ f ih =>
    intro n hn
    simp only [Nat.toDigitsCore]
    by_cases h : n / 10 = 0
    · have hlt : n < 10 := by omega
      rw [decDigits]
      simp [h, hlt, Nat.mod_eq_of_lt hlt]
    · have h10 : 10 ≤ n := by omega
      have hdiv : n / 10 < f := by
        have : n / 10 < n := Nat.div_lt_self (by omega) (by omega)
        omega
      rw [decDigits]
      simp only [h, if_false, Nat.lt_irrefl]
      rw [toDigitsCore_accumulates, ih (n / 10) hdiv]
      simp [Nat.not_lt.mpr h10]

theorem toDigits_eq_decDigits (n : Nat) :
    Nat.toDigits 10 n = decDigits n := by
  rw [Nat.toDigits]
  exact toDigitsCore_eq_decDigits (n + 1) n (Nat.lt_succ_self n)

theorem digitChar_toNat (d : Nat) (h : d < 10) :
    (Nat.digitChar d).toNat = 48 + d := by
  interval_cases d <;> rfl

/-- Base-10 valuation of a digit string, with accumulator. -/
def digitVal (a : Nat) (l : List Char) : Nat :=
  l.foldl (fun acc c => 10 * acc + (c.toNat - 48)) a

theorem digitVal_decDigits (n : Nat) :
    ∀ a : Nat, digitVal a (decDigits n) = a * 10 ^ (decDigits n).length + n := by
  induction n using Nat.strong_induction_on with
  | _ n ih =>
    intro a
    by_cases h : n < 10
    · rw [decDigits, dif_pos h]
      simp [digitVal, digitChar_toNat n h]
      omega
    · have hq : n / 10 < n := Nat.div_lt_self (by omega) (by omega)
      have hr : n % 10 < 10 := Nat.mod_lt _ (by omega)
      rw [decDigits, dif_neg h]
      have hsplit : digitVal a (decDigits (n / 10) ++ [Nat.digitChar (n % 10)]) =
          10 * digitVal a (decDigits (n / 10)) + ((Nat.digitChar (n % 10)).toNat - 48) := by
        simp [digitVal, List.foldl_append]
      rw [hsplit, ih (n / 10) hq a, digitChar_toNat (n % 10) hr]
      have e1 : 48 + n % 10 - 48 = n % 10 := by omega
      rw [e1]
      simp only [List.length_append, List.length_singleton, pow_succ, pow_zero]
      have hdm : 10 * (n / 10) + n % 10 = n := Nat.div_add_mod n 10
      have expand : 10 * (a * 10 ^ (decDigits (n / 10)).length + n / 10) + n % 10 =
          a * (10 ^ (decDigits (n / 10)).length * 10) + (10 * (n / 10) + n % 10) := by
        ring
      rw [expand, hdm]

theorem decDigits_injective {m n : Nat} (h : decDigits m = decDigits n) :
    m = n := by
  have hm := digitVal_decDigits m 0
  have hn := digitVal_decDigits n 0
  rw [h] at hm
  omega

theorem natRepr_injective {m n : Nat} (h : Nat.repr m = Nat.repr n) :
    m = n := by
  apply decDigits_injective
  have : (Nat.repr m).data = (Nat.repr n).data := by rw [h]
  simpa [Nat.repr, toDigits_eq_decDigits, List.asString] using this

/-! Poll-loop lemmas. -/

theorem pollLoop_never (name : String) (poll : Nat → Option String) :
    ∀ (fuel i att slp : Nat) (acc : List Event),
      (∀ k, k < fuel → poll (i + k) = none) →
      (pollLoop name poll i fuel acc att slp).result = .error .tokenNotReady ∧
      (pollLoop name poll i fuel acc att slp).attempts = att + fuel ∧
      (pollLoop name poll i fuel acc att slp).sleeps = slp + fuel := by
  intro fuel
  induction fuel with
  | zero => intro i att slp acc _; exact ⟨rfl, rfl, rfl⟩
  | succ f ih =>
    intro i att slp acc h
    have h0 : poll i = none := by simpa using h 0 (Nat.succ_pos f)
    simp only [pollLoop, h0]
    have hrest : ∀ k, k < f → poll (i + 1 + k) = none := by
      intro k hk
      have := h (k + 1) (by omega)
      simpa [Nat.add_assoc, Nat.add_comm 1 k] using this
    obtain ⟨h1, h2, h3⟩ := ih (i + 1) (att + 1) (slp + 1)
      (acc ++ [Event.readToken name, Event.sleep]) hrest
    refine ⟨h1, ?_, ?_⟩ <;> omega

theorem pollLoop_ready (name tok : String) (poll : Nat → Option String) :
    ∀ (k fuel i att slp : Nat) (acc : List Event),
      k < fuel → poll (i + k) = some tok → (∀ j, j < k → poll (i + j) = none) →
      (pollLoop name poll i fuel acc att slp).result = .ok tok ∧
      (pollLoop name poll i fuel acc att slp).attempts = att + k + 1 ∧
      (pollLoop name poll i fuel acc att slp).sleeps = slp + k := by
  intro k
  induction k with
  | zero =>
    intro fuel i att slp acc hk hsome _
    obtain ⟨f, rfl⟩ : ∃ f, fuel = f + 1 := ⟨fuel - 1, by omega⟩
    have h0 : poll i = some tok := by simpa using hsome
    simp [pollLoop, h0]
  | succ k ih =>
    intro fuel i att slp acc hk hsome hnone
    obtain ⟨f, rfl⟩ : ∃ f, fuel = f + 1 := ⟨fuel - 1, by omega⟩
    have h0 : poll i = none := by simpa using hnone 0 (Nat.succ_pos k)
    simp only [pollLoop, h0]
    have hsome2 : poll (i + 1 + k) = some tok := by
      have : i + 1 + k = i + (k + 1) := by omega
      rw [this]; exact hsome
    have hnone2 : ∀ j, j < k → poll (i + 1 + j) = none := by
      intro j hj
      have : i + 1 + j = i + (j + 1) := by omega
      rw [this]; exact hnone (j + 1) (by omega)
    obtain ⟨h1, h2, h3⟩ := ih (f) (i + 1) (att + 1) (slp + 1)
      (acc ++ [Event.readToken name, Event.sleep]) (by omega) hsome2 hnone2
    refine ⟨h1, ?_, ?_⟩ <;> omega

/-- C5 — For a token whose material becomes present at poll read `k + 1 ≤ 10`
(reads `0..k-1` see nothing, read `k` sees the token), Issue returns that
token after exactly `k + 1` poll reads, the waits lying strictly between
consecutive reads; for a token whose material never becomes present within
the bound, Issue performs exactly `max_retries = 10` poll reads (one
`time.sleep(1)` after each fruitless read) and then fails with the
token-not-ready error, attempting no further read. -/
theorem c5_poll_termination (poll : Nat → Option String) (name tok : String) (k : Nat) :
    (k < 10 → poll k = some tok → (∀ j, j < k → poll j = none) →
      (create_service_account_token none false name poll).result = .ok tok ∧
      (create_service_account_token none false name poll).attempts = k + 1 ∧
      (create_service_account_token none false name poll).sleeps = k) ∧
    ((∀ j, j < 10 → poll j = none) →
      (create_service_account_token none false name poll).result = .error .tokenNotReady ∧
      (create_service_account_token none false name poll).attempts = 10 ∧
      (create_service_account_token none false name poll).sleeps = 10) := by
  constructor
  · intro hk hsome hnone
    have := pollLoop_ready name tok poll k 10 0 0 0 [Event.createToken name] hk
      (by simpa using hsome) (by simpa using hnone)
    simpa [create_service_account_token] using this
  · intro hnone
    have := pollLoop_never name poll 10 0 0 0 [Event.createToken name]
      (by simpa using hnone)
    simpa [create_service_account_token] using this

/-- C5 witness: ready at the third read (k = 2), and never ready. -/
theorem c5_poll_termination_witness :
    ((create_service_account_token none false "t"
        (fun i => if i == 2 then some "tok" else none)).result = .ok "tok" ∧
      (create_service_account_token none false "t"
        (fun i => if i == 2 then some "tok" else none)).attempts = 3 ∧
      (create_service_account_token none false "t"
        (fun i => if i == 2 then some "tok" else none)).sleeps = 2) ∧
    ((create_service_account_token none false "t" (fun _ => none)).result =
        .error .tokenNotReady ∧
      (create_service_account_token none false "t" (fun _ => none)).attempts = 10 ∧
      (create_service_account_token none false "t" (fun _ => none)).sleeps = 10) := by
  constructor
  · exact (c5_poll_termination (fun i => if i == 2 then some "tok" else none) "t" "tok" 2).1
      (by omega) (by decide)
      (by intro j hj; interval_cases j <;> decide)
  · exact (c5_poll_termination (fun _ => none) "t" "tok" 0).2 (fun j _ => rfl)

/-- The poll outcome does not depend on the events/counters accumulated
before the loop starts (only the extra retrieve of the conflict path
differs between the two entry points of the loop). -/
theorem pollLoop_result_indep (name : String) (poll : Nat → Option String) :
    ∀ (fuel i att att2 slp slp2 : Nat) (acc acc2 : List Event),
      (pollLoop name poll i fuel acc att slp).result =
        (pollLoop name poll i fuel acc2 att2 slp2).result := by
  intro fuel
  induction fuel with
  | zero => intro i att att2 slp slp2 acc acc2; rfl
  | succ f ih =>
    intro i att att2 slp slp2 acc acc2
    simp only [pollLoop]
    cases poll i with
    | some tok => rfl
    | none => exact ih (i + 1) (att + 1) (att2 + 1) (slp + 1) (slp2 + 1) _ _

/-- C6 — Token-secret names embed the service-account name and the unix
timestamp: rotations of the same service account at distinct timestamps
derive distinct names, rotations at an identical timestamp derive the same
name, and an issuance whose create hits the already-exists conflict
(`conflict = true`, the 409 path) is treated as success: it proceeds to the
poll phase and returns exactly what a fresh creation's poll would return. -/
theorem c6_name_uniqueness (sa : String) (ts1 ts2 : Nat) (name : String)
    (poll : Nat → Option String) :
    (ts1 ≠ ts2 → tokenName sa ts1 ≠ tokenName sa ts2) ∧
    (ts1 = ts2 → tokenName sa ts1 = tokenName sa ts2) ∧
    ((create_service_account_token none true name poll).result =
      (create_service_account_token none false name poll).result) := by
  refine ⟨?_, ?_, ?_⟩
  · intro hne heq
    apply hne
    apply natRepr_injective
    have hdata := congrArg String.data heq
    simp only [tokenName, String.data_append] at hdata
    have := List.append_cancel_left hdata
    exact String.ext this
  · intro h; rw [h]
  · simp only [create_service_account_token]
    exact pollLoop_result_indep name poll 10 0 0 0 0 0 _ _

/-- C6 witness: service account `sa`, timestamps 17 and 170 give distinct
names, 17 and 17 the same name, and a conflicted issuance with the token
ready at the first read returns it. -/
theorem c6_name_uniqueness_witness :
    (tokenName "sa" 17 ≠ tokenName "sa" 170) ∧
    (tokenName "sa" 17 = tokenName "sa" 17) ∧
    ((create_service_account_token none true "sa-17" (fun _ => some "tok")).result =
      (create_service_account_token none false "sa-17" (fun _ => some "tok")).result) := by
  obtain ⟨h1, h2, h3⟩ := c6_name_uniqueness "sa" 17 170 "sa-17" (fun _ => some "tok")
  exact ⟨h1 (by omega), by rfl, h3⟩

/-- C4 — With the API key resolvable, the upsert attempts the update (PUT)
first and exactly once; the fallback create (POST) happens if and only if
the update's `raise_for_status` failed and the error body is JSON whose
`"message"` contains `"No such secret found"`; in that case exactly one
create call is made with no further update attempt, a successful create
makes the upsert succeed, a failed create propagates its own error; an
update failure whose message does not report a missing secret propagates
the update's HTTP error. -/
theorem c4_update_then_create (env : Env) (remote : RemoteBehavior) (ident key : String)
    (hk : check_env env "PLUGIN_HARNESS_PLATFORM_API_KEY" none = .ok key) :
    (∃ rest, (update_harness_secret env remote ident).2 = .putRemote ident :: rest) ∧
    (update_harness_secret env remote ident).2.countP (fun e => e.isPut) = 1 ∧
    ((update_harness_secret env remote ident).2.countP (fun e => e.isPost) = 1 ↔
      (400 ≤ remote.updateStatus ∧ ∃ m, remote.updateBody = .message m ∧
        hasSubstr m "No such secret found" = true)) ∧
    (remote.updateStatus < 400 →
      update_harness_secret env remote ident = (.ok, [.putRemote ident])) ∧
    (400 ≤ remote.updateStatus →
      (∀ m, remote.updateBody = .message m → hasSubstr m "No such secret found" = true →
        (update_harness_secret env remote ident).2 = [.putRemote ident, .postRemote ident] ∧
        (remote.createStatus < 400 → (update_harness_secret env remote ident).1 = .ok) ∧
        (400 ≤ remote.createStatus → (update_harness_secret env remote ident).1 =
          .raised (.createHttpError remote.createStatus))) ∧
      (∀ m, remote.updateBody = .message m → hasSubstr m "No such secret found" = false →
        (update_harness_secret env remote ident).1 =
          .raised (.updateHttpError remote.updateStatus))) := by
  by_cases hu : remote.updateStatus < 400
  · have hEq : update_harness_secret env remote ident = (.ok, [.putRemote ident]) := by
      simp [update_harness_secret, hk, hu]
    rw [hEq]
    refine ⟨⟨[], rfl⟩, by simp [Event.isPut], ?_, fun _ => rfl,
      fun h => absurd h (by omega)⟩
    constructor
    · intro hcp
      have h0 : ([Event.putRemote ident].countP (fun e => e.isPost)) = 0 := by
        simp [Event.isPost]
      rw [h0] at hcp
      exact absurd hcp (by omega)
    · rintro ⟨hx, -⟩
      exact absurd hx (by omega)
  · have h400 : 400 ≤ remote.updateStatus := by omega
    cases hb : remote.updateBody with
    | invalid =>
      have hEq : update_harness_secret env remote ident =
          (.raised .jsonError, [.putRemote ident]) := by
        simp [update_harness_secret, hk, hu, hb]
      rw [hEq]
      refine ⟨⟨[], rfl⟩, by simp [Event.isPut], ?_, fun h => absurd h hu, ?_⟩
      · constructor
        · intro hcp
          have h0 : ([Event.putRemote ident].countP (fun e => e.isPost)) = 0 := by
            simp [Event.isPost]
          rw [h0] at hcp
          exact absurd hcp (by omega)
        · rintro ⟨-, m2, hm2, -⟩
          exact absurd hm2 (by simp)
      · exact fun _ => ⟨fun m2 hm2 => absurd hm2 (by simp),
          fun m2 hm2 => absurd hm2 (by simp)⟩
    | noMessage =>
      have hEq : update_harness_secret env remote ident =
          (.raised .typeError, [.putRemote ident]) := by
        simp [update_harness_secret, hk, hu, hb]
      rw [hEq]
      refine ⟨⟨[], rfl⟩, by simp [Event.isPut], ?_, fun h => absurd h hu, ?_⟩
      · constructor
        · intro hcp
          have h0 : ([Event.putRemote ident].countP (fun e => e.isPost)) = 0 := by
            simp [Event.isPost]
          rw [h0] at hcp
          exact absurd hcp (by omega)
        · rintro ⟨-, m2, hm2, -⟩
          exact absurd hm2 (by simp)
      · exact fun _ => ⟨fun m2 hm2 => absurd hm2 (by simp),
          fun m2 hm2 => absurd hm2 (by simp)⟩
    | message m =>
      by_cases hnf : hasSubstr m "No such secret found" = true
      · by_cases hc : remote.createStatus < 400
        · have hEq : update_harness_secret env remote ident =
              (.ok, [.putRemote ident, .postRemote ident]) := by
            simp [update_harness_secret, create_harness_secret, hk, hu, hb, hnf, hc]
          rw [hEq]
          refine ⟨⟨[.postRemote ident], rfl⟩, by simp [Event.isPut], ?_,
            fun h => absurd h hu, ?_⟩
          · have hL : ([Event.putRemote ident, Event.postRemote ident].countP
                (fun e => e.isPost)) = 1 := by
              simp [Event.isPost]
            exact ⟨fun _ => ⟨h400, m, rfl, hnf⟩, fun _ => hL⟩
          · intro _
            refine ⟨fun m2 hm2 hs2 =>
                ⟨rfl, fun _ => rfl, fun hc2 => absurd hc2 (by omega)⟩,
              fun m2 hm2 hs2 => ?_⟩
            injection hm2 with h
            subst h
            rw [hnf] at hs2
            simp at hs2
        · have hEq : update_harness_secret env remote ident =
              (.raised (.createHttpError remote.createStatus),
                [.putRemote ident, .postRemote ident]) := by
            simp [update_harness_secret, create_harness_secret, hk, hu, hb, hnf, hc]
          rw [hEq]
          refine ⟨⟨[.postRemote ident], rfl⟩, by simp [Event.isPut], ?_,
            fun h => absurd h hu, ?_⟩
          · have hL : ([Event.putRemote ident, Event.postRemote ident].countP
                (fun e => e.isPost)) = 1 := by
              simp [Event.isPost]
            exact ⟨fun _ => ⟨h400, m, rfl, hnf⟩, fun _ => hL⟩
          · intro _
            refine ⟨fun m2 hm2 hs2 => ⟨rfl, fun hc2 => absurd hc2 hc, fun _ => rfl⟩,
              fun m2 hm2 hs2 => ?_⟩
            injection hm2 with h
            subst h
            rw [hnf] at hs2
            simp at hs2
      · have hnf2 : hasSubstr m "No such secret found" = false := by
          simpa using hnf
        have hEq : update_harness_secret env remote ident =
            (.raised (.updateHttpError remote.updateStatus), [.putRemote ident]) := by
          simp [update_harness_secret, hk, hu, hb, hnf2]
        rw [hEq]
        refine ⟨⟨[], rfl⟩, by simp [Event.isPut], ?_, fun h => absurd h hu, ?_⟩
        · constructor
          · intro hcp
            have h0 : ([Event.putRemote ident].countP (fun e => e.isPost)) = 0 := by
              simp [Event.isPost]
            rw [h0] at hcp
            exact absurd hcp (by omega)
          · rintro ⟨-, m2, hm2, hs2⟩
            injection hm2 with h
            subst h
            rw [hnf2] at hs2
            simp at hs2
        · intro _
          refine ⟨fun m2 hm2 hs2 => ?_, fun m2 hm2 hs2 => rfl⟩
          injection hm2 with h
          subst h
          rw [hnf2] at hs2
          simp at hs2

/-- C4 witness: key present, update answered 404 with a not-found message,
create answered 200: the run makes exactly the PUT then one POST and
succeeds. -/
theorem c4_update_then_create_witness :
    (update_harness_secret [("PLUGIN_HARNESS_PLATFORM_API_KEY", "key")]
      ⟨404, .message "error: No such secret found in scope", 200⟩ "cred").2 =
      [.putRemote "cred", .postRemote "cred"] ∧
    (update_harness_secret [("PLUGIN_HARNESS_PLATFORM_API_KEY", "key")]
      ⟨404, .message "error: No such secret found in scope", 200⟩ "cred").1 = .ok := by
  have h := c4_update_then_create [("PLUGIN_HARNESS_PLATFORM_API_KEY", "key")]
    ⟨404, .message "error: No such secret found in scope", 200⟩ "cred" "key" (by rfl)
  obtain ⟨-, -, -, -, h5⟩ := h
  obtain ⟨h5a, -⟩ := h5 (by decide)
  obtain ⟨he, hok, -⟩ :=
    h5a "error: No such secret found in scope" rfl (by decide)
  exact ⟨he, hok (by decide)⟩

/-- C10 — When the update's `raise_for_status` fails: a body that is not
valid JSON makes the upsert raise the secondary JSON-parse error and
attempt no create; a JSON body with no `"message"` makes it raise the
secondary `TypeError` (membership test on `None`) and attempt no create;
the original HTTP error can only ever surface when the body did parse with
a message; and the create fallback is taken exactly when the parsed message
contains `"No such secret found"`. -/
theorem c10_secondary_error_shadows (env : Env) (remote : RemoteBehavior)
    (ident key : String)
    (hk : check_env env "PLUGIN_HARNESS_PLATFORM_API_KEY" none = .ok key)
    (h400 : 400 ≤ remote.updateStatus) :
    (remote.updateBody = .invalid →
      (update_harness_secret env remote ident).1 = .raised .jsonError ∧
      (update_harness_secret env remote ident).2.countP (fun e => e.isPost) = 0) ∧
    (remote.updateBody = .noMessage →
      (update_harness_secret env remote ident).1 = .raised .typeError ∧
      (update_harness_secret env remote ident).2.countP (fun e => e.isPost) = 0) ∧
    (∀ st, (update_harness_secret env remote ident).1 ≠ .raised (.updateHttpError st) ∨
      ∃ m, remote.updateBody = .message m) ∧
    ((update_harness_secret env remote ident).2.countP (fun e => e.isPost) ≠ 0 ↔
      ∃ m, remote.updateBody = .message m ∧
        hasSubstr m "No such secret found" = true) := by
  have hu : ¬remote.updateStatus < 400 := by omega
  cases hb : remote.updateBody with
  | invalid =>
    have hEq : update_harness_secret env remote ident =
        (.raised .jsonError, [.putRemote ident]) := by
      simp [update_harness_secret, hk, hu, hb]
    rw [hEq]
    refine ⟨fun _ => ⟨rfl, by simp [Event.isPost]⟩, fun h => absurd h (by simp),
      fun st => .inl (by simp), ?_⟩
    constructor
    · intro hcp
      exact absurd (by simp [Event.isPost] : ([Event.putRemote ident].countP
        (fun e => e.isPost)) = 0) hcp
    · rintro ⟨m2, hm2, -⟩
      exact absurd hm2 (by simp)
  | noMessage =>
    have hEq : update_harness_secret env remote ident =
        (.raised .typeError, [.putRemote ident]) := by
      simp [update_harness_secret, hk, hu, hb]
    rw [hEq]
    refine ⟨fun h => absurd h (by simp), fun _ => ⟨rfl, by simp [Event.isPost]⟩,
      fun st => .inl (by simp), ?_⟩
    constructor
    · intro hcp
      exact absurd (by simp [Event.isPost] : ([Event.putRemote ident].countP
        (fun e => e.isPost)) = 0) hcp
    · rintro ⟨m2, hm2, -⟩
      exact absurd hm2 (by simp)
  | message m =>
    by_cases hnf : hasSubstr m "No such secret found" = true
    · by_cases hc : remote.createStatus < 400
      · have hEq : update_harness_secret env remote ident =
            (.ok, [.putRemote ident, .postRemote ident]) := by
          simp [update_harness_secret, create_harness_secret, hk, hu, hb, hnf, hc]
        rw [hEq]
        refine ⟨fun h => absurd h (by simp), fun h => absurd h (by simp),
          fun st => .inl (by simp), ?_⟩
        have hL : ([Event.putRemote ident, Event.postRemote ident].countP
            (fun e => e.isPost)) = 1 := by
          simp [Event.isPost]
        rw [hL]
        exact ⟨fun _ => ⟨m, rfl, hnf⟩, fun _ => by omega⟩
      · have hEq : update_harness_secret env remote ident =
            (.raised (.createHttpError remote.createStatus),
              [.putRemote ident, .postRemote ident]) := by
          simp [update_harness_secret, create_harness_secret, hk, hu, hb, hnf, hc]
        rw [hEq]
        refine ⟨fun h => absurd h (by simp), fun h => absurd h (by simp),
          fun st => .inr ⟨m, rfl⟩, ?_⟩
        have hL : ([Event.putRemote ident, Event.postRemote ident].countP
            (fun e => e.isPost)) = 1 := by
          simp [Event.isPost]
        rw [hL]
        exact ⟨fun _ => ⟨m, rfl, hnf⟩, fun _ => by omega⟩
    · have hnf2 : hasSubstr m "No such secret found" = false := by simpa using hnf
      have hEq : update_harness_secret env remote ident =
          (.raised (.updateHttpError remote.updateStatus), [.putRemote ident]) := by
        simp [update_harness_secret, hk, hu, hb, hnf2]
      rw [hEq]
      refine ⟨fun h => absurd h (by simp), fun h => absurd h (by simp),
        fun st => .inr ⟨m, rfl⟩, ?_⟩
      constructor
      · intro hcp
        exact absurd (by simp [Event.isPost] : ([Event.putRemote ident].countP
          (fun e => e.isPost)) = 0) hcp
      · rintro ⟨m2, hm2, hs2⟩
        injection hm2 with h
        subst h
        rw [hnf2] at hs2
        simp at hs2

/-- C10 witness: key present, update answered 500 with a non-JSON body:
the upsert raises the JSON-parse error and makes no POST. -/
theorem c10_secondary_error_shadows_witness :
    (update_harness_secret [("PLUGIN_HARNESS_PLATFORM_API_KEY", "key")]
      ⟨500, .invalid, 200⟩ "cred").1 = .raised .jsonError ∧
    (update_harness_secret [("PLUGIN_HARNESS_PLATFORM_API_KEY", "key")]
      ⟨500, .invalid, 200⟩ "cred").2.countP (fun e => e.isPost) = 0 := by
  have h := c10_secondary_error_shadows [("PLUGIN_HARNESS_PLATFORM_API_KEY", "key")]
    ⟨500, .invalid, 200⟩ "cred" "key" (by rfl) (by decide)
  exact h.1 rfl

/-! Trace-shape lemmas used by the orchestrator-level claims. -/

/-- The publish step ends in one of five shapes: config exit before the PUT,
update success, update-side exception after the PUT alone, fallback success,
or exception after PUT and POST. -/
theorem update_harness_secret_shape (env : Env) (remote : RemoteBehavior)
    (ident : String) :
    (∃ v, update_harness_secret env remote ident = (.configExit v, [])) ∨
    update_harness_secret env remote ident = (.ok, [.putRemote ident]) ∨
    (∃ e, update_harness_secret env remote ident = (.raised e, [.putRemote ident])) ∨
    update_harness_secret env remote ident = (.ok, [.putRemote ident, .postRemote ident]) ∨
    (∃ e, update_harness_secret env remote ident =
      (.raised e, [.putRemote ident, .postRemote ident])) := by
  cases heq : check_env env "PLUGIN_HARNESS_PLATFORM_API_KEY" none with
  | error v => exact .inl ⟨v, by simp [update_harness_secret, heq]⟩
  | ok k =>
    by_cases hu : remote.updateStatus < 400
    · exact .inr (.inl (by simp [update_harness_secret, heq, hu]))
    · cases hb : remote.updateBody with
      | invalid =>
        exact .inr (.inr (.inl ⟨.jsonError, by simp [update_harness_secret, heq, hu, hb]⟩))
      | noMessage =>
        exact .inr (.inr (.inl ⟨.typeError, by simp [update_harness_secret, heq, hu, hb]⟩))
      | message m =>
        by_cases hnf : hasSubstr m "No such secret found" = true
        · by_cases hc : remote.createStatus < 400
          · exact .inr (.inr (.inr (.inl
              (by simp [update_harness_secret, create_harness_secret, heq, hu, hb, hnf, hc]))))
          · exact .inr (.inr (.inr (.inr ⟨.createHttpError remote.createStatus,
              by simp [update_harness_secret, create_harness_secret, heq, hu, hb, hnf, hc]⟩)))
        · have hnf2 : hasSubstr m "No such secret found" = false := by simpa using hnf
          exact .inr (.inr (.inl ⟨.updateHttpError remote.updateStatus,
            by simp [update_harness_secret, heq, hu, hb, hnf2]⟩))

theorem pollLoop_events_mem (name : String) (poll : Nat → Option String) :
    ∀ (fuel i att slp : Nat) (acc : List Event) (e : Event),
      e ∈ (pollLoop name poll i fuel acc att slp).events →
      e ∈ acc ∨ e = .readToken name ∨ e = .sleep := by
  intro fuel
  induction fuel with
  | zero => intro i att slp acc e he; exact .inl he
  | succ f ih =>
    intro i att slp acc e he
    simp only [pollLoop] at he
    cases hp : poll i with
    | none =>
      rw [hp] at he
      rcases ih (i + 1) (att + 1) (slp + 1) (acc ++ [.readToken name, .sleep]) e he
        with h | h | h
      · rcases List.mem_append.mp h with h2 | h2
        · exact .inl h2
        · simp at h2
          rcases h2 with h3 | h3
          · exact .inr (.inl h3)
          · exact .inr (.inr h3)
      · exact .inr (.inl h)
      · exact .inr (.inr h)
    | some tok =>
      rw [hp] at he
      simp at he
      rcases he with h | h
      · exact .inl h
      · exact .inr (.inl h)

theorem create_service_account_token_events_mem (flt : Option Nat) (conflict : Bool)
    (name : String) (poll : Nat → Option String) (e : Event)
    (he : e ∈ (create_service_account_token flt conflict name poll).events) :
    e = .createToken name ∨ e = .readToken name ∨ e = .sleep := by
  cases flt with
  | some st =>
    simp [create_service_account_token] at he
    exact .inl he
  | none =>
    cases conflict with
    | true =>
      simp only [create_service_account_token, if_pos] at he
      rcases pollLoop_events_mem name poll 10 0 0 0 _ e he with h | h | h
      · simp at h
        rcases h with h2 | h2
        · exact .inl h2
        · exact .inr (.inl h2)
      · exact .inr (.inl h)
      · exact .inr (.inr h)
    | false =>
      simp only [create_service_account_token, if_neg] at he
      rcases pollLoop_events_mem name poll 10 0 0 0 _ e he with h | h | h
      · simp at h
        exact .inl h
      · exact .inr (.inl h)
      · exact .inr (.inr h)

theorem cleanupLoop_events_mem (flt : String → Option Nat) :
    ∀ (toDel : List SecretInfo) (cluster : List SecretInfo) (acc : List Event)
      (e : Event), e ∈ (cleanupLoop flt toDel cluster acc).events →
      e ∈ acc ∨ e.isDelete = true := by
  intro toDel
  induction toDel with
  | nil => intro cluster acc e he; exact .inl he
  | cons s rest ih =>
    intro cluster acc e he
    simp only [cleanupLoop] at he
    cases hd : delete_k8s_secret flt cluster s.name with
    | ok c2 =>
      rw [hd] at he
      rcases ih c2 (acc ++ [.deleteSecret s.name]) e he with h | h
      · rcases List.mem_append.mp h with h2 | h2
        · exact .inl h2
        · simp at h2
          subst h2
          exact .inr rfl
      · exact .inr h
    | error st =>
      rw [hd] at he
      simp at he
      rcases he with h | h
      · exact .inl h
      · subst h
        exact .inr rfl

theorem deletesOnlyAfterPut_of_no_delete :
    ∀ l : List Event, (∀ e ∈ l, e.isDelete = false) →
      deletesOnlyAfterPut l = true := by
  intro l
  induction l with
  | nil => intro _; rfl
  | cons e l ih =>
    intro h
    simp only [deletesOnlyAfterPut]
    by_cases hp : e.isPut = true
    · simp [hp]
    · have hp2 : e.isPut = false := by revert hp; cases e.isPut <;> simp
      simp [hp2, h e (List.mem_cons_self e l),
        ih (fun x hx => h x (List.mem_cons_of_mem _ hx))]

theorem deletesOnlyAfterPut_append (l1 l2 : List Event)
    (h : ∀ e ∈ l1, e.isDelete = false ∧ e.isPut = false) :
    deletesOnlyAfterPut (l1 ++ l2) = deletesOnlyAfterPut l2 := by
  induction l1 with
  | nil => rfl
  | cons e l ih =>
    obtain ⟨hd, hp⟩ := h e (List.mem_cons_self e l)
    simp only [List.cons_append, deletesOnlyAfterPut, hp, hd]
    simpa using ih (fun x hx => h x (List.mem_cons_of_mem _ hx))

/-! Step equations for `mainRun`. -/

theorem mainRun_eq_configExit (env : Env) (ts : Nat) (cluster0 : List SecretInfo)
    (poll : Nat → Option String) (remote : RemoteBehavior)
    (listFault createFault : Option Nat) (deleteFault : String → Option Nat)
    (v : String) (hcfg : resolveConfig env = .error v) :
    mainRun env ts cluster0 poll remote listFault createFault deleteFault =
      ⟨.configExit v, [], cluster0⟩ := by
  simp [mainRun, hcfg]

theorem mainRun_eq_listFault (env : Env) (ts : Nat) (cluster0 : List SecretInfo)
    (poll : Nat → Option String) (remote : RemoteBehavior)
    (st : Nat) (createFault : Option Nat) (deleteFault : String → Option Nat)
    (cfg : Config) (hcfg : resolveConfig env = .ok cfg) :
    mainRun env ts cluster0 poll remote (some st) createFault deleteFault =
      ⟨.fatal (.listFailed st), [.listSecrets cfg.serviceAccountName], cluster0⟩ := by
  simp [mainRun, hcfg]

theorem mainRun_eq_issueError (env : Env) (ts : Nat) (cluster0 : List SecretInfo)
    (poll : Nat → Option String) (remote : RemoteBehavior)
    (createFault : Option Nat) (deleteFault : String → Option Nat)
    (cfg : Config) (e : IssueError) (hcfg : resolveConfig env = .ok cfg)
    (hres : (issueOf cfg ts cluster0 poll createFault).result = .error e) :
    mainRun env ts cluster0 poll remote none createFault deleteFault =
      ⟨.fatal (.issueFailed e),
        [.listSecrets cfg.serviceAccountName] ++
          (issueOf cfg ts cluster0 poll createFault).events,
        cluster1Of cfg ts cluster0 createFault⟩ := by
  simp [mainRun, hcfg, hres]

theorem mainRun_eq_pubConfigExit (env : Env) (ts : Nat) (cluster0 : List SecretInfo)
    (poll : Nat → Option String) (remote : RemoteBehavior)
    (createFault : Option Nat) (deleteFault : String → Option Nat)
    (cfg : Config) (token v : String) (hcfg : resolveConfig env = .ok cfg)
    (hres : (issueOf cfg ts cluster0 poll createFault).result = .ok token)
    (hpub : (update_harness_secret env remote cfg.secretIdentifier).1 = .configExit v) :
    mainRun env ts cluster0 poll remote none createFault deleteFault =
      ⟨.configExit v,
        [.listSecrets cfg.serviceAccountName] ++
          (issueOf cfg ts cluster0 poll createFault).events ++
          (update_harness_secret env remote cfg.secretIdentifier).2,
        cluster1Of cfg ts cluster0 createFault⟩ := by
  simp [mainRun, hcfg, hres, hpub]

theorem mainRun_eq_pubRaised (env : Env) (ts : Nat) (cluster0 : List SecretInfo)
    (poll : Nat → Option String) (remote : RemoteBehavior)
    (createFault : Option Nat) (deleteFault : String → Option Nat)
    (cfg : Config) (token : String) (e : UpsertError)
    (hcfg : resolveConfig env = .ok cfg)
    (hres : (issueOf cfg ts cluster0 poll createFault).result = .ok token)
    (hpub : (update_harness_secret env remote cfg.secretIdentifier).1 = .raised e) :
    mainRun env ts cluster0 poll remote none createFault deleteFault =
      ⟨.publishSwallowed,
        [.listSecrets cfg.serviceAccountName] ++
          (issueOf cfg ts cluster0 poll createFault).events ++
          (update_harness_secret env remote cfg.secretIdentifier).2,
        cluster1Of cfg ts cluster0 createFault⟩ := by
  simp [mainRun, hcfg, hres, hpub]

theorem mainRun_eq_pubOk (env : Env) (ts : Nat) (cluster0 : List SecretInfo)
    (poll : Nat → Option String) (remote : RemoteBehavior)
    (createFault : Option Nat) (deleteFault : String → Option Nat)
    (cfg : Config) (token : String) (hcfg : resolveConfig env = .ok cfg)
    (hres : (issueOf cfg ts cluster0 poll createFault).result = .ok token)
    (hpub : (update_harness_secret env remote cfg.secretIdentifier).1 = .ok) :
    mainRun env ts cluster0 poll remote none createFault deleteFault =
      cleanupStage env deleteFault (list_k8s_secrets cluster0 cfg.serviceAccountName)
        (cluster1Of cfg ts cluster0 createFault) (tokenName cfg.serviceAccountName ts)
        cfg.secretIdentifier token
        ([.listSecrets cfg.serviceAccountName] ++
          (issueOf cfg ts cluster0 poll createFault).events ++
          (update_harness_secret env remote cfg.secretIdentifier).2) := by
  simp [mainRun, hcfg, hres, hpub]

theorem countP_isDelete_eq_zero (l : List Event)
    (h : ∀ e ∈ l, e.isDelete = false) :
    List.countP (fun e => e.isDelete) l = 0 := by
  rw [List.countP_eq_zero]
  intro a ha
  simp [h a ha]

/-- The Report/Cleanup stage only ever appends deletion events to the trace
accumulated so far. -/
theorem cleanupStage_events_shape (env : Env) (flt : String → Option Nat)
    (secrets cluster : List SecretInfo) (nm id tok : String) (acc : List Event) :
    (cleanupStage env flt secrets cluster nm id tok acc).events = acc ∨
    ∃ ev2, (cleanupStage env flt secrets cluster nm id tok acc).events = acc ++ ev2 ∧
      ∀ e ∈ ev2, e.isDelete = true := by
  unfold cleanupStage
  by_cases hflag : deleteFlag env = ""
  · simp only [hflag, if_pos]
    exact .inl trivial
  · simp only [hflag, if_neg, not_false_iff]
    have hmem : ∀ e ∈ (cleanupLoop flt secrets cluster []).events, e.isDelete = true := by
      intro e he
      rcases cleanupLoop_events_mem flt secrets cluster [] e he with h | h
      · simp at h
      · exact h
    cases herr : (cleanupLoop flt secrets cluster []).err with
    | some p =>
      obtain ⟨st, n⟩ := p
      simp only [herr]
      exact .inr ⟨(cleanupLoop flt secrets cluster []).events, rfl, hmem⟩
    | none =>
      simp only [herr]
      exact .inr ⟨(cleanupLoop flt secrets cluster []).events, rfl, hmem⟩

/-- C1 — In every run, no cluster-secret deletion occurs before the
remote-secret upsert: scanning the trace, everything before the first PUT
is a non-deletion; if the publish step does not return success (it raises,
or exits on the missing API key) then the run performs zero deletions; and
a run that performed any deletion had a successful publish. -/
theorem c1_delete_only_after_publish (env : Env) (ts : Nat)
    (cluster0 : List SecretInfo) (poll : Nat → Option String)
    (remote : RemoteBehavior) (listFault createFault : Option Nat)
    (deleteFault : String → Option Nat) :
    deletesOnlyAfterPut
      (mainRun env ts cluster0 poll remote listFault createFault deleteFault).events
      = true ∧
    (∀ cfg, resolveConfig env = .ok cfg →
      (update_harness_secret env remote cfg.secretIdentifier).1.isOk = false →
      List.countP (fun e => e.isDelete)
        (mainRun env ts cluster0 poll remote listFault createFault deleteFault).events
        = 0) ∧
    (∀ cfg, resolveConfig env = .ok cfg →
      List.countP (fun e => e.isDelete)
        (mainRun env ts cluster0 poll remote listFault createFault deleteFault).events
        ≠ 0 →
      (update_harness_secret env remote cfg.secretIdentifier).1 = .ok) := by
  cases hcfg : resolveConfig env with
  | error v =>
    rw [mainRun_eq_configExit env ts cluster0 poll remote listFault createFault
      deleteFault v hcfg]
    refine ⟨rfl, ?_, ?_⟩ <;>
      (intro cfg hcfg2; exact absurd hcfg2 (by simp))
  | ok cfg =>
    have hinj : ∀ cfg2, (Except.ok cfg : Except String Config) = Except.ok cfg2 →
        cfg2 = cfg := by
      intro cfg2 h
      injection h with h2
      exact h2.symm
    cases listFault with
    | some st =>
      rw [mainRun_eq_listFault env ts cluster0 poll remote st createFault
        deleteFault cfg hcfg]
      refine ⟨by simp [deletesOnlyAfterPut, Event.isPut, Event.isDelete], ?_, ?_⟩
      · intro cfg2 _ _
        exact countP_isDelete_eq_zero _ (by intro e he; simp at he; subst he; rfl)
      · intro cfg2 _ h3
        exact absurd (countP_isDelete_eq_zero _
          (by intro e he; simp at he; subst he; rfl)) h3
    | none =>
      have hIssueEv : ∀ e ∈ (issueOf cfg ts cluster0 poll createFault).events,
          e.isDelete = false ∧ e.isPut = false := by
        intro e he
        rcases create_service_account_token_events_mem _ _ _ _ e he with h | h | h <;>
          subst h <;> exact ⟨rfl, rfl⟩
      cases hres : (issueOf cfg ts cluster0 poll createFault).result with
      | error e =>
        rw [mainRun_eq_issueError env ts cluster0 poll remote createFault
          deleteFault cfg e hcfg hres]
        have hnodel : ∀ e2 ∈ [Event.listSecrets cfg.serviceAccountName] ++
            (issueOf cfg ts cluster0 poll createFault).events, e2.isDelete = false := by
          intro e2 he2
          rcases List.mem_append.mp he2 with h | h
          · simp at h; subst h; rfl
          · exact (hIssueEv e2 h).1
        refine ⟨deletesOnlyAfterPut_of_no_delete _ hnodel, ?_, ?_⟩
        · intro cfg2 _ _
          exact countP_isDelete_eq_zero _ hnodel
        · intro cfg2 _ h3
          exact absurd (countP_isDelete_eq_zero _ hnodel) h3
      | ok token =>
        have hnodelPre : ∀ e2 ∈ [Event.listSecrets cfg.serviceAccountName] ++
            (issueOf cfg ts cluster0 poll createFault).events,
            e2.isDelete = false ∧ e2.isPut = false := by
          intro e2 he2
          rcases List.mem_append.mp he2 with h | h
          · simp at h; subst h; exact ⟨rfl, rfl⟩
          · exact hIssueEv e2 h
        rcases update_harness_secret_shape env remote cfg.secretIdentifier with
          ⟨v, hup⟩ | hup | ⟨e, hup⟩ | hup | ⟨e, hup⟩
        · have hpub1 : (update_harness_secret env remote cfg.secretIdentifier).1 =
              .configExit v := by rw [hup]
          have hpub2 : (update_harness_secret env remote cfg.secretIdentifier).2 =
              [] := by rw [hup]
          rw [mainRun_eq_pubConfigExit env ts cluster0 poll remote createFault
            deleteFault cfg token v hcfg hres hpub1, hpub2]
          have hnodel : ∀ e2 ∈ ([Event.listSecrets cfg.serviceAccountName] ++
              (issueOf cfg ts cluster0 poll createFault).events) ++ ([] : List Event),
              e2.isDelete = false := by
            intro e2 he2
            rw [List.append_nil] at he2
            exact (hnodelPre e2 he2).1
          refine ⟨deletesOnlyAfterPut_of_no_delete _ hnodel, ?_, ?_⟩
          · intro cfg2 _ _
            exact countP_isDelete_eq_zero _ hnodel
          · intro cfg2 _ h3
            exact absurd (countP_isDelete_eq_zero _ hnodel) h3
        · have hpub1 : (update_harness_secret env remote cfg.secretIdentifier).1 =
              .ok := by rw [hup]
          have hpub2 : (update_harness_secret env remote cfg.secretIdentifier).2 =
              [.putRemote cfg.secretIdentifier] := by rw [hup]
          rw [mainRun_eq_pubOk env ts cluster0 poll remote createFault deleteFault
            cfg token hcfg hres hpub1]
          rcases cleanupStage_events_shape env deleteFault
              (list_k8s_secrets cluster0 cfg.serviceAccountName)
              (cluster1Of cfg ts cluster0 createFault)
              (tokenName cfg.serviceAccountName ts) cfg.secretIdentifier token
              ([Event.listSecrets cfg.serviceAccountName] ++
                (issueOf cfg ts cluster0 poll createFault).events ++
                (update_harness_secret env remote cfg.secretIdentifier).2)
            with hev | ⟨ev2, hev, hev2d⟩
          · rw [hev, hpub2]
            refine ⟨?_, fun cfg2 hcfg2 hfalse => ?_, fun cfg2 hcfg2 _ => ?_⟩
            · rw [deletesOnlyAfterPut_append _ _ hnodelPre]
              rfl
            · obtain rfl := hinj cfg2 hcfg2
              rw [hpub1] at hfalse
              simp [PublishResult.isOk] at hfalse
            · obtain rfl := hinj cfg2 hcfg2
              exact hpub1
          · rw [hev, hpub2]
            refine ⟨?_, fun cfg2 hcfg2 hfalse => ?_, fun cfg2 hcfg2 _ => ?_⟩
            · rw [List.append_assoc]
              rw [deletesOnlyAfterPut_append _ _ hnodelPre]
              rfl
            · obtain rfl := hinj cfg2 hcfg2
              rw [hpub1] at hfalse
              simp [PublishResult.isOk] at hfalse
            · obtain rfl := hinj cfg2 hcfg2
              exact hpub1
        · have hpub1 : (update_harness_secret env remote cfg.secretIdentifier).1 =
              .raised e := by rw [hup]
          have hpub2 : (update_harness_secret env remote cfg.secretIdentifier).2 =
              [.putRemote cfg.secretIdentifier] := by rw [hup]
          rw [mainRun_eq_pubRaised env ts cluster0 poll remote createFault
            deleteFault cfg token e hcfg hres hpub1, hpub2]
          have hnodel : ∀ e2 ∈ ([Event.listSecrets cfg.serviceAccountName] ++
              (issueOf cfg ts cluster0 poll createFault).events) ++
              [Event.putRemote cfg.secretIdentifier], e2.isDelete = false := by
            intro e2 he2
            rcases List.mem_append.mp he2 with h | h
            · exact (hnodelPre e2 h).1
            · simp at h; subst h; rfl
          refine ⟨deletesOnlyAfterPut_of_no_delete _ hnodel, ?_, ?_⟩
          · intro cfg2 _ _
            exact countP_isDelete_eq_zero _ hnodel
          · intro cfg2 _ h3
            exact absurd (countP_isDelete_eq_zero _ hnodel) h3
        · have hpub1 : (update_harness_secret env remote cfg.secretIdentifier).1 =
              .ok := by rw [hup]
          have hpub2 : (update_harness_secret env remote cfg.secretIdentifier).2 =
              [.putRemote cfg.secretIdentifier, .postRemote cfg.secretIdentifier] := by
            rw [hup]
          rw [mainRun_eq_pubOk env ts cluster0 poll remote createFault deleteFault
            cfg token hcfg hres hpub1]
          rcases cleanupStage_events_shape env deleteFault
              (list_k8s_secrets cluster0 cfg.serviceAccountName)
              (cluster1Of cfg ts cluster0 createFault)
              (tokenName cfg.serviceAccountName ts) cfg.secretIdentifier token
              ([Event.listSecrets cfg.serviceAccountName] ++
                (issueOf cfg ts cluster0 poll createFault).events ++
                (update_harness_secret env remote cfg.secretIdentifier).2)
            with hev | ⟨ev2, hev, hev2d⟩
          · rw [hev, hpub2]
            refine ⟨?_, fun cfg2 hcfg2 hfalse => ?_, fun cfg2 hcfg2 _ => ?_⟩
            · rw [deletesOnlyAfterPut_append _ _ hnodelPre]
              rfl
            · obtain rfl := hinj cfg2 hcfg2
              rw [hpub1] at hfalse
              simp [PublishResult.isOk] at hfalse
            · obtain rfl := hinj cfg2 hcfg2
              exact hpub1
          · rw [hev, hpub2]
            refine ⟨?_, fun cfg2 hcfg2 hfalse => ?_, fun cfg2 hcfg2 _ => ?_⟩
            · rw [List.append_assoc]
              rw [deletesOnlyAfterPut_append _ _ hnodelPre]
              rfl
            · obtain rfl := hinj cfg2 hcfg2
              rw [hpub1] at hfalse
              simp [PublishResult.isOk] at hfalse
            · obtain rfl := hinj cfg2 hcfg2
              exact hpub1
        · have hpub1 : (update_harness_secret env remote cfg.secretIdentifier).1 =
              .raised e := by rw [hup]
          have hpub2 : (update_harness_secret env remote cfg.secretIdentifier).2 =
              [.putRemote cfg.secretIdentifier, .postRemote cfg.secretIdentifier] := by
            rw [hup]
          rw [mainRun_eq_pubRaised env ts cluster0 poll remote createFault
            deleteFault cfg token e hcfg hres hpub1, hpub2]
          have hnodel : ∀ e2 ∈ ([Event.listSecrets cfg.serviceAccountName] ++
              (issueOf cfg ts cluster0 poll createFault).events) ++
              [Event.putRemote cfg.secretIdentifier,
                Event.postRemote cfg.secretIdentifier], e2.isDelete = false := by
            intro e2 he2
            rcases List.mem_append.mp he2 with h | h
            · exact (hnodelPre e2 h).1
            · simp at h
              rcases h with h2 | h2 <;> (subst h2; rfl)
          refine ⟨deletesOnlyAfterPut_of_no_delete _ hnodel, ?_, ?_⟩
          · intro cfg2 _ _
            exact countP_isDelete_eq_zero _ hnodel
          · intro cfg2 _ h3
            exact absurd (countP_isDelete_eq_zero _ hnodel) h3

/-- C1 witness: a concrete run (publish answered 500 with message "boom",
deletion flag on, one stale secret in the cluster) keeps the ordering
predicate and performs zero deletions. -/
theorem c1_delete_only_after_publish_witness :
    deletesOnlyAfterPut
      (mainRun [("PLUGIN_HARNESS_ACCOUNT", "acct"), ("PLUGIN_HARNESS_ORG", ""),
          ("PLUGIN_HARNESS_PROJECT", ""), ("PLUGIN_HARNESS_PLATFORM_API_KEY", "key"),
          ("PLUGIN_DELETE_K8S_SECRETS", "true")] 7
        [⟨"harness-delegate-ng-1", "kubernetes.io/service-account-token", ["token"]⟩]
        (fun _ => some "tok") ⟨500, .message "boom", 200⟩ none none
        (fun _ => none)).events = true ∧
    List.countP (fun e => e.isDelete)
      (mainRun [("PLUGIN_HARNESS_ACCOUNT", "acct"), ("PLUGIN_HARNESS_ORG", ""),
          ("PLUGIN_HARNESS_PROJECT", ""), ("PLUGIN_HARNESS_PLATFORM_API_KEY", "key"),
          ("PLUGIN_DELETE_K8S_SECRETS", "true")] 7
        [⟨"harness-delegate-ng-1", "kubernetes.io/service-account-token", ["token"]⟩]
        (fun _ => some "tok") ⟨500, .message "boom", 200⟩ none none
        (fun _ => none)).events = 0 := by
  have h := c1_delete_only_after_publish
    [("PLUGIN_HARNESS_ACCOUNT", "acct"), ("PLUGIN_HARNESS_ORG", ""),
      ("PLUGIN_HARNESS_PROJECT", ""), ("PLUGIN_HARNESS_PLATFORM_API_KEY", "key"),
      ("PLUGIN_DELETE_K8S_SECRETS", "true")] 7
    [⟨"harness-delegate-ng-1", "kubernetes.io/service-account-token", ["token"]⟩]
    (fun _ => some "tok") ⟨500, .message "boom", 200⟩ none none (fun _ => none)
  exact ⟨h.1, h.2.1 ⟨"harness-delegate-ng", "harness-delegate-ng", "acct", "", "",
    "harness-delegate-ng", "\x7b\x7d"⟩ (by rfl) (by decide)⟩

theorem update_harness_secret_events_mem (env : Env) (remote : RemoteBehavior)
    (ident : String) (e : Event)
    (he : e ∈ (update_harness_secret env remote ident).2) :
    e = .putRemote ident ∨ e = .postRemote ident := by
  rcases update_harness_secret_shape env remote ident with
    ⟨v, hup⟩ | hup | ⟨e2, hup⟩ | hup | ⟨e2, hup⟩
  · rw [hup] at he; simp at he
  · rw [hup] at he; simp at he; exact .inl he
  · rw [hup] at he; simp at he; exact .inl he
  · rw [hup] at he; simp at he; exact he
  · rw [hup] at he; simp at he; exact he

theorem countP_event_eq_zero (p : Event → Bool) (l : List Event)
    (h : ∀ e ∈ l, p e = false) : List.countP (fun e => p e) l = 0 := by
  rw [List.countP_eq_zero]
  intro a ha
  simp [h a ha]

/-- C3 counterexample — a concrete run in which the remote upsert fails
(update answered 500 with message "boom") yet the process ends with exit
code 0, a success indication: the failure is logged and `main` returns. -/
theorem c3_counterexample_publish_failure_exits_zero :
    (update_harness_secret [("PLUGIN_HARNESS_ACCOUNT", "acct"),
        ("PLUGIN_HARNESS_ORG", ""), ("PLUGIN_HARNESS_PROJECT", ""),
        ("PLUGIN_HARNESS_PLATFORM_API_KEY", "key")]
      ⟨500, .message "boom", 200⟩ "harness-delegate-ng").1 =
      .raised (.updateHttpError 500) ∧
    (mainRun [("PLUGIN_HARNESS_ACCOUNT", "acct"), ("PLUGIN_HARNESS_ORG", ""),
        ("PLUGIN_HARNESS_PROJECT", ""), ("PLUGIN_HARNESS_PLATFORM_API_KEY", "key")] 7
      [] (fun _ => some "tok") ⟨500, .message "boom", 200⟩ none none
      (fun _ => none)).outcome = .publishSwallowed ∧
    exitCode (mainRun [("PLUGIN_HARNESS_ACCOUNT", "acct"), ("PLUGIN_HARNESS_ORG", ""),
        ("PLUGIN_HARNESS_PROJECT", ""), ("PLUGIN_HARNESS_PLATFORM_API_KEY", "key")] 7
      [] (fun _ => some "tok") ⟨500, .message "boom", 200⟩ none none
      (fun _ => none)).outcome = 0 := by
  refine ⟨by decide, by decide, by decide⟩

/-- C3 amended — A failed publish is NOT surfaced as a process failure:
whenever the upsert raises (any `Exception`: HTTP error, JSON parse error,
the `TypeError` on a message-less body, or a failed fallback create), `main`
catches it, logs, and returns; the run performs no deletion, writes no
outputs, and the process exits 0 (a success indication).  (Config exits and
uncaught cluster exceptions, by contrast, exit nonzero by construction.) -/
theorem c3_amended_publish_failure_swallowed (env : Env) (ts : Nat)
    (cluster0 : List SecretInfo) (poll : Nat → Option String)
    (remote : RemoteBehavior) (createFault : Option Nat)
    (deleteFault : String → Option Nat) (cfg : Config) (token : String)
    (e : UpsertError) (hcfg : resolveConfig env = .ok cfg)
    (hres : (issueOf cfg ts cluster0 poll createFault).result = .ok token)
    (hpub : (update_harness_secret env remote cfg.secretIdentifier).1 = .raised e) :
    (mainRun env ts cluster0 poll remote none createFault deleteFault).outcome =
      .publishSwallowed ∧
    exitCode (mainRun env ts cluster0 poll remote none createFault
      deleteFault).outcome = 0 ∧
    List.countP (fun e2 => e2.isDelete)
      (mainRun env ts cluster0 poll remote none createFault deleteFault).events = 0 := by
  rw [mainRun_eq_pubRaised env ts cluster0 poll remote createFault deleteFault cfg
    token e hcfg hres hpub]
  refine ⟨rfl, rfl, ?_⟩
  apply countP_event_eq_zero
  intro e2 he2
  rcases List.mem_append.mp he2 with h | h
  · rcases List.mem_append.mp h with h2 | h2
    · simp at h2; subst h2; rfl
    · rcases create_service_account_token_events_mem _ _ _ _ e2 h2 with h3 | h3 | h3 <;>
        (subst h3; rfl)
  · rcases update_harness_secret_events_mem env remote cfg.secretIdentifier e2 h
      with h3 | h3 <;> (subst h3; rfl)

/-- C3 amended witness: the counterexample run, through the amended
theorem. -/
theorem c3_amended_publish_failure_swallowed_witness :
    (mainRun [("PLUGIN_HARNESS_ACCOUNT", "acct"), ("PLUGIN_HARNESS_ORG", ""),
        ("PLUGIN_HARNESS_PROJECT", ""), ("PLUGIN_HARNESS_PLATFORM_API_KEY", "key")] 7
      [] (fun _ => some "tok") ⟨500, .message "boom", 200⟩ none none
      (fun _ => none)).outcome = .publishSwallowed ∧
    exitCode (mainRun [("PLUGIN_HARNESS_ACCOUNT", "acct"), ("PLUGIN_HARNESS_ORG", ""),
        ("PLUGIN_HARNESS_PROJECT", ""), ("PLUGIN_HARNESS_PLATFORM_API_KEY", "key")] 7
      [] (fun _ => some "tok") ⟨500, .message "boom", 200⟩ none none
      (fun _ => none)).outcome = 0 ∧
    List.countP (fun e2 => e2.isDelete)
      (mainRun [("PLUGIN_HARNESS_ACCOUNT", "acct"), ("PLUGIN_HARNESS_ORG", ""),
          ("PLUGIN_HARNESS_PROJECT", ""), ("PLUGIN_HARNESS_PLATFORM_API_KEY", "key")] 7
        [] (fun _ => some "tok") ⟨500, .message "boom", 200⟩ none none
        (fun _ => none)).events = 0 :=
  c3_amended_publish_failure_swallowed
    [("PLUGIN_HARNESS_ACCOUNT", "acct"), ("PLUGIN_HARNESS_ORG", ""),
      ("PLUGIN_HARNESS_PROJECT", ""), ("PLUGIN_HARNESS_PLATFORM_API_KEY", "key")] 7
    [] (fun _ => some "tok") ⟨500, .message "boom", 200⟩ none (fun _ => none)
    ⟨"harness-delegate-ng", "harness-delegate-ng", "acct", "", "",
      "harness-delegate-ng", "\x7b\x7d"⟩ "tok" (.updateHttpError 500)
    (by rfl) (by rfl) (by decide)

theorem check_env_default_ok (env : Env) (n d : String) :
    ∃ v, check_env env n (some d) = .ok v := by
  unfold check_env
  cases getenv env n with
  | some v => exact ⟨v, rfl⟩
  | none => exact ⟨d, rfl⟩

theorem resolveConfig_account_missing (env : Env)
    (h : getenv env "PLUGIN_HARNESS_ACCOUNT" = none) :
    resolveConfig env = .error "PLUGIN_HARNESS_ACCOUNT" := by
  obtain ⟨v1, h1⟩ := check_env_default_ok env "PLUGIN_NAMESPACE" "harness-delegate-ng"
  obtain ⟨v2, h2⟩ :=
    check_env_default_ok env "PLUGIN_SERVICE_ACCOUNT_NAME" "harness-delegate-ng"
  have h3 : check_env env "PLUGIN_HARNESS_ACCOUNT" none =
      .error "PLUGIN_HARNESS_ACCOUNT" := by
    simp [check_env, h]
  simp [resolveConfig, h1, h2, h3, Except.instMonad, Except.bind]

/-- C7 counterexample — with `PLUGIN_HARNESS_ACCOUNT` (and org/project) set
but the remote API key (a required setting with no default) absent, the run
still performs the cluster read (Discover) and the cluster mutation (the
token-secret creation) before aborting at publish time: the claim "aborts
before any external call" fails for the API key. -/
theorem c7_counterexample_late_api_key_check :
    getenv [("PLUGIN_HARNESS_ACCOUNT", "acct"), ("PLUGIN_HARNESS_ORG", ""),
      ("PLUGIN_HARNESS_PROJECT", "")] "PLUGIN_HARNESS_PLATFORM_API_KEY" = none ∧
    (mainRun [("PLUGIN_HARNESS_ACCOUNT", "acct"), ("PLUGIN_HARNESS_ORG", ""),
        ("PLUGIN_HARNESS_PROJECT", "")] 7 [] (fun _ => some "tok")
      ⟨200, .noMessage, 200⟩ none none (fun _ => none)).outcome =
      .configExit "PLUGIN_HARNESS_PLATFORM_API_KEY" ∧
    Event.listSecrets "harness-delegate-ng" ∈
      (mainRun [("PLUGIN_HARNESS_ACCOUNT", "acct"), ("PLUGIN_HARNESS_ORG", ""),
          ("PLUGIN_HARNESS_PROJECT", "")] 7 [] (fun _ => some "tok")
        ⟨200, .noMessage, 200⟩ none none (fun _ => none)).events ∧
    Event.createToken "harness-delegate-ng-7" ∈
      (mainRun [("PLUGIN_HARNESS_ACCOUNT", "acct"), ("PLUGIN_HARNESS_ORG", ""),
          ("PLUGIN_HARNESS_PROJECT", "")] 7 [] (fun _ => some "tok")
        ⟨200, .noMessage, 200⟩ none none (fun _ => none)).events := by
  refine ⟨by decide, by decide, by decide, by decide⟩

/-- C7 amended — The required settings resolved at the top of `main`
(`PLUGIN_HARNESS_ACCOUNT`, org, project) abort the run before any external
call when absent (empty trace); the remote API key, however, is resolved
only inside the publish step, so its absence still prevents every
remote-manager request (no PUT, no POST) but not the earlier cluster read
and token creation. -/
theorem c7_amended_config_check_timing (env : Env) (ts : Nat)
    (cluster0 : List SecretInfo) (poll : Nat → Option String)
    (remote : RemoteBehavior) (listFault createFault : Option Nat)
    (deleteFault : String → Option Nat) :
    (getenv env "PLUGIN_HARNESS_ACCOUNT" = none →
      mainRun env ts cluster0 poll remote listFault createFault deleteFault =
        ⟨.configExit "PLUGIN_HARNESS_ACCOUNT", [], cluster0⟩) ∧
    (getenv env "PLUGIN_HARNESS_PLATFORM_API_KEY" = none →
      List.countP (fun e => e.isPut)
        (mainRun env ts cluster0 poll remote listFault createFault deleteFault).events
        = 0 ∧
      List.countP (fun e => e.isPost)
        (mainRun env ts cluster0 poll remote listFault createFault deleteFault).events
        = 0) := by
  constructor
  · intro h
    exact mainRun_eq_configExit env ts cluster0 poll remote listFault createFault
      deleteFault "PLUGIN_HARNESS_ACCOUNT" (resolveConfig_account_missing env h)
  · intro hkey
    have hupEq : ∀ ident, update_harness_secret env remote ident =
        (.configExit "PLUGIN_HARNESS_PLATFORM_API_KEY", []) := by
      intro ident
      have hc : check_env env "PLUGIN_HARNESS_PLATFORM_API_KEY" none =
          .error "PLUGIN_HARNESS_PLATFORM_API_KEY" := by
        simp [check_env, hkey]
      simp [update_harness_secret, hc]
    cases hcfg : resolveConfig env with
    | error v =>
      rw [mainRun_eq_configExit env ts cluster0 poll remote listFault createFault
        deleteFault v hcfg]
      exact ⟨rfl, rfl⟩
    | ok cfg =>
      cases listFault with
      | some st =>
        rw [mainRun_eq_listFault env ts cluster0 poll remote st createFault
          deleteFault cfg hcfg]
        exact ⟨countP_event_eq_zero _ _ (by intro e he; simp at he; subst he; rfl),
          countP_event_eq_zero _ _ (by intro e he; simp at he; subst he; rfl)⟩
      | none =>
        have hpre : ∀ e ∈ [Event.listSecrets cfg.serviceAccountName] ++
            (issueOf cfg ts cluster0 poll createFault).events,
            e.isPut = false ∧ e.isPost = false := by
          intro e he
          rcases List.mem_append.mp he with h | h
          · simp at h; subst h; exact ⟨rfl, rfl⟩
          · rcases create_service_account_token_events_mem _ _ _ _ e h
              with h2 | h2 | h2 <;> (subst h2; exact ⟨rfl, rfl⟩)
        cases hres : (issueOf cfg ts cluster0 poll createFault).result with
        | error e =>
          rw [mainRun_eq_issueError env ts cluster0 poll remote createFault
            deleteFault cfg e hcfg hres]
          exact ⟨countP_event_eq_zero _ _ (fun e2 he2 => (hpre e2 he2).1),
            countP_event_eq_zero _ _ (fun e2 he2 => (hpre e2 he2).2)⟩
        | ok token =>
          have hpub1 : (update_harness_secret env remote cfg.secretIdentifier).1 =
              .configExit "PLUGIN_HARNESS_PLATFORM_API_KEY" := by
            rw [hupEq]
          have hpub2 : (update_harness_secret env remote cfg.secretIdentifier).2 =
              [] := by
            rw [hupEq]
          rw [mainRun_eq_pubConfigExit env ts cluster0 poll remote createFault
            deleteFault cfg token "PLUGIN_HARNESS_PLATFORM_API_KEY" hcfg hres hpub1,
            hpub2]
          rw [List.append_nil]
          exact ⟨countP_event_eq_zero _ _ (fun e2 he2 => (hpre e2 he2).1),
            countP_event_eq_zero _ _ (fun e2 he2 => (hpre e2 he2).2)⟩

/-- C7 amended witness: an empty environment exits on the account with an
empty trace; the counterexample environment (key absent) performs no
remote-manager call. -/
theorem c7_amended_config_check_timing_witness :
    mainRun [] 7 [] (fun _ => some "tok") ⟨200, .noMessage, 200⟩ none none
      (fun _ => none) = ⟨.configExit "PLUGIN_HARNESS_ACCOUNT", [], []⟩ ∧
    List.countP (fun e => e.isPut)
      (mainRun [("PLUGIN_HARNESS_ACCOUNT", "acct"), ("PLUGIN_HARNESS_ORG", ""),
          ("PLUGIN_HARNESS_PROJECT", "")] 7 [] (fun _ => some "tok")
        ⟨200, .noMessage, 200⟩ none none (fun _ => none)).events = 0 ∧
    List.countP (fun e => e.isPost)
      (mainRun [("PLUGIN_HARNESS_ACCOUNT", "acct"), ("PLUGIN_HARNESS_ORG", ""),
          ("PLUGIN_HARNESS_PROJECT", "")] 7 [] (fun _ => some "tok")
        ⟨200, .noMessage, 200⟩ none none (fun _ => none)).events = 0 := by
  refine ⟨(c7_amended_config_check_timing [] 7 [] (fun _ => some "tok")
      ⟨200, .noMessage, 200⟩ none none (fun _ => none)).1 rfl, ?_, ?_⟩
  · exact ((c7_amended_config_check_timing [("PLUGIN_HARNESS_ACCOUNT", "acct"),
      ("PLUGIN_HARNESS_ORG", ""), ("PLUGIN_HARNESS_PROJECT", "")] 7 []
      (fun _ => some "tok") ⟨200, .noMessage, 200⟩ none none (fun _ => none)).2
      rfl).1
  · exact ((c7_amended_config_check_timing [("PLUGIN_HARNESS_ACCOUNT", "acct"),
      ("PLUGIN_HARNESS_ORG", ""), ("PLUGIN_HARNESS_PROJECT", "")] 7 []
      (fun _ => some "tok") ⟨200, .noMessage, 200⟩ none none (fun _ => none)).2
      rfl).2

/-- C8 counterexample — deleting an absent secret is an error, not success:
the bare delete of a missing name yields the re-raised 404, and a run whose
cleanup meets a 404 (the secret vanished between Discover and Cleanup,
modelled by the fault oracle) aborts with a nonzero exit instead of
continuing. -/
theorem c8_counterexample_delete_absent_is_error :
    delete_k8s_secret (fun _ => none) [] "missing" = .error 404 ∧
    (mainRun [("PLUGIN_SERVICE_ACCOUNT_NAME", "sa"),
        ("PLUGIN_HARNESS_ACCOUNT", "acct"), ("PLUGIN_HARNESS_ORG", ""),
        ("PLUGIN_HARNESS_PROJECT", ""), ("PLUGIN_HARNESS_PLATFORM_API_KEY", "key"),
        ("PLUGIN_DELETE_K8S_SECRETS", "true")] 9
      [⟨"sa-1", "Opaque", []⟩] (fun _ => some "tok") ⟨200, .noMessage, 200⟩
      none none (fun n => if n == "sa-1" then some 404 else none)).outcome =
      .fatal (.cleanupFailed 404 "sa-1") ∧
    exitCode (mainRun [("PLUGIN_SERVICE_ACCOUNT_NAME", "sa"),
        ("PLUGIN_HARNESS_ACCOUNT", "acct"), ("PLUGIN_HARNESS_ORG", ""),
        ("PLUGIN_HARNESS_PROJECT", ""), ("PLUGIN_HARNESS_PLATFORM_API_KEY", "key"),
        ("PLUGIN_DELETE_K8S_SECRETS", "true")] 9
      [⟨"sa-1", "Opaque", []⟩] (fun _ => some "tok") ⟨200, .noMessage, 200⟩
      none none (fun n => if n == "sa-1" then some 404 else none)).outcome = 1 := by
  refine ⟨by rfl, by decide, by decide⟩

/-- C8 amended — `delete_k8s_secret` re-raises the 404 of an absent secret:
the caller DOES distinguish absence from success (the exception propagates
out of `main`'s unguarded deletion loop), so cleanup is not idempotent with
respect to absent secrets. -/
theorem c8_amended_delete_absent_errors (flt : String → Option Nat)
    (cluster : List SecretInfo) (name : String) (hflt : flt name = none)
    (habs : cluster.any (fun s => s.name == name) = false) :
    delete_k8s_secret flt cluster name = .error 404 := by
  simp [delete_k8s_secret, hflt, habs]

/-- C8 amended witness: the empty cluster and a quiet fault oracle. -/
theorem c8_amended_delete_absent_errors_witness :
    delete_k8s_secret (fun _ => none) [] "missing" = .error 404 :=
  c8_amended_delete_absent_errors (fun _ => none) [] "missing" rfl rfl

/-- Once the prefix of the deletion loop ran without error, the whole loop
continues from the prefix's end state. -/
theorem cleanupLoop_append (flt : String → Option Nat) :
    ∀ (l1 l2 cluster : List SecretInfo) (acc : List Event),
      (cleanupLoop flt l1 cluster acc).err = none →
      cleanupLoop flt (l1 ++ l2) cluster acc =
        cleanupLoop flt l2 (cleanupLoop flt l1 cluster acc).cluster
          (cleanupLoop flt l1 cluster acc).events := by
  intro l1
  induction l1 with
  | nil => intro l2 cluster acc _; rfl
  | cons s rest ih =>
    intro l2 cluster acc herr
    simp only [cleanupLoop, List.cons_append] at herr ⊢
    cases hd : delete_k8s_secret flt cluster s.name with
    | ok c2 =>
      rw [hd] at herr
      exact ih l2 c2 (acc ++ [.deleteSecret s.name]) herr
    | error st =>
      rw [hd] at herr
      simp at herr

/-- C2 counterexample — three discovered stale secrets `sa-1 sa-2 sa-3`,
deleting `sa-2` raises (status 500): `sa-1` is deleted, the loop aborts,
`sa-3` is NOT deleted (no delete event for it, it is still in the cluster),
and the run ends as an uncaught exception (exit 1) with no outputs — not as
a success. -/
theorem c2_counterexample_deletion_error_aborts :
    (mainRun [("PLUGIN_SERVICE_ACCOUNT_NAME", "sa"),
        ("PLUGIN_HARNESS_ACCOUNT", "acct"), ("PLUGIN_HARNESS_ORG", ""),
        ("PLUGIN_HARNESS_PROJECT", ""), ("PLUGIN_HARNESS_PLATFORM_API_KEY", "key"),
        ("PLUGIN_DELETE_K8S_SECRETS", "true")] 9
      [⟨"sa-1", "Opaque", []⟩, ⟨"sa-2", "Opaque", []⟩, ⟨"sa-3", "Opaque", []⟩]
      (fun _ => some "tok") ⟨200, .noMessage, 200⟩ none none
      (fun n => if n == "sa-2" then some 500 else none)).outcome =
      .fatal (.cleanupFailed 500 "sa-2") ∧
    Event.deleteSecret "sa-1" ∈
      (mainRun [("PLUGIN_SERVICE_ACCOUNT_NAME", "sa"),
          ("PLUGIN_HARNESS_ACCOUNT", "acct"), ("PLUGIN_HARNESS_ORG", ""),
          ("PLUGIN_HARNESS_PROJECT", ""), ("PLUGIN_HARNESS_PLATFORM_API_KEY", "key"),
          ("PLUGIN_DELETE_K8S_SECRETS", "true")] 9
        [⟨"sa-1", "Opaque", []⟩, ⟨"sa-2", "Opaque", []⟩, ⟨"sa-3", "Opaque", []⟩]
        (fun _ => some "tok") ⟨200, .noMessage, 200⟩ none none
        (fun n => if n == "sa-2" then some 500 else none)).events ∧
    Event.deleteSecret "sa-3" ∉
      (mainRun [("PLUGIN_SERVICE_ACCOUNT_NAME", "sa"),
          ("PLUGIN_HARNESS_ACCOUNT", "acct"), ("PLUGIN_HARNESS_ORG", ""),
          ("PLUGIN_HARNESS_PROJECT", ""), ("PLUGIN_HARNESS_PLATFORM_API_KEY", "key"),
          ("PLUGIN_DELETE_K8S_SECRETS", "true")] 9
        [⟨"sa-1", "Opaque", []⟩, ⟨"sa-2", "Opaque", []⟩, ⟨"sa-3", "Opaque", []⟩]
        (fun _ => some "tok") ⟨200, .noMessage, 200⟩ none none
        (fun n => if n == "sa-2" then some 500 else none)).events ∧
    ⟨"sa-3", "Opaque", []⟩ ∈
      (mainRun [("PLUGIN_SERVICE_ACCOUNT_NAME", "sa"),
          ("PLUGIN_HARNESS_ACCOUNT", "acct"), ("PLUGIN_HARNESS_ORG", ""),
          ("PLUGIN_HARNESS_PROJECT", ""), ("PLUGIN_HARNESS_PLATFORM_API_KEY", "key"),
          ("PLUGIN_DELETE_K8S_SECRETS", "true")] 9
        [⟨"sa-1", "Opaque", []⟩, ⟨"sa-2", "Opaque", []⟩, ⟨"sa-3", "Opaque", []⟩]
        (fun _ => some "tok") ⟨200, .noMessage, 200⟩ none none
        (fun n => if n == "sa-2" then some 500 else none)).cluster := by
  refine ⟨by decide, by decide, by decide, by decide⟩

/-- C2 amended — cleanup is NOT best-effort: the first deletion that raises
stops the loop (the secrets after it are never attempted: no event for
them, the cluster keeps the state reached so far), and in `main` a failed
deletion turns the run into an uncaught exception instead of a success. -/
theorem c2_amended_cleanup_failure_aborts :
    (∀ (flt : String → Option Nat) (l1 : List SecretInfo) (s : SecretInfo)
        (l2 cluster : List SecretInfo) (acc : List Event) (st : Nat),
      (cleanupLoop flt l1 cluster acc).err = none →
      delete_k8s_secret flt (cleanupLoop flt l1 cluster acc).cluster s.name =
        .error st →
      (cleanupLoop flt (l1 ++ s :: l2) cluster acc).err = some (st, s.name) ∧
      (cleanupLoop flt (l1 ++ s :: l2) cluster acc).events =
        (cleanupLoop flt l1 cluster acc).events ++ [.deleteSecret s.name] ∧
      (cleanupLoop flt (l1 ++ s :: l2) cluster acc).cluster =
        (cleanupLoop flt l1 cluster acc).cluster) ∧
    (∀ (env : Env) (flt : String → Option Nat)
        (secrets cluster : List SecretInfo) (nm id tok : String)
        (acc : List Event) (st : Nat) (n : String),
      (cleanupLoop flt secrets cluster []).err = some (st, n) →
      deleteFlag env ≠ "" →
      (cleanupStage env flt secrets cluster nm id tok acc).outcome =
        .fatal (.cleanupFailed st n)) := by
  constructor
  · intro flt l1 s l2 cluster acc st herr hdel
    rw [cleanupLoop_append flt l1 (s :: l2) cluster acc herr]
    simp [cleanupLoop, hdel]
  · intro env flt secrets cluster nm id tok acc st n herr hflag
    simp [cleanupStage, hflag, herr]

/-- C2 amended witness: the counterexample's deletion list, decomposed as
prefix `sa-1`, failing element `sa-2`, untouched suffix `sa-3`; and the
resulting fatal outcome of the stage. -/
theorem c2_amended_cleanup_failure_aborts_witness :
    ((cleanupLoop (fun n => if n == "sa-2" then some 500 else none)
        ([⟨"sa-1", "Opaque", []⟩] ++ ⟨"sa-2", "Opaque", []⟩ ::
          [⟨"sa-3", "Opaque", []⟩])
        [⟨"sa-1", "Opaque", []⟩, ⟨"sa-2", "Opaque", []⟩, ⟨"sa-3", "Opaque", []⟩]
        []).err = some (500, "sa-2") ∧
      (cleanupLoop (fun n => if n == "sa-2" then some 500 else none)
        ([⟨"sa-1", "Opaque", []⟩] ++ ⟨"sa-2", "Opaque", []⟩ ::
          [⟨"sa-3", "Opaque", []⟩])
        [⟨"sa-1", "Opaque", []⟩, ⟨"sa-2", "Opaque", []⟩, ⟨"sa-3", "Opaque", []⟩]
        []).events =
        (cleanupLoop (fun n => if n == "sa-2" then some 500 else none)
          [⟨"sa-1", "Opaque", []⟩]
          [⟨"sa-1", "Opaque", []⟩, ⟨"sa-2", "Opaque", []⟩, ⟨"sa-3", "Opaque", []⟩]
          []).events ++ [.deleteSecret "sa-2"] ∧
      (cleanupLoop (fun n => if n == "sa-2" then some 500 else none)
        ([⟨"sa-1", "Opaque", []⟩] ++ ⟨"sa-2", "Opaque", []⟩ ::
          [⟨"sa-3", "Opaque", []⟩])
        [⟨"sa-1", "Opaque", []⟩, ⟨"sa-2", "Opaque", []⟩, ⟨"sa-3", "Opaque", []⟩]
        []).cluster =
        (cleanupLoop (fun n => if n == "sa-2" then some 500 else none)
          [⟨"sa-1", "Opaque", []⟩]
          [⟨"sa-1", "Opaque", []⟩, ⟨"sa-2", "Opaque", []⟩, ⟨"sa-3", "Opaque", []⟩]
          []).cluster) ∧
    (cleanupStage [("PLUGIN_DELETE_K8S_SECRETS", "true")]
      (fun n => if n == "sa-2" then some 500 else none)
      [⟨"sa-1", "Opaque", []⟩, ⟨"sa-2", "Opaque", []⟩, ⟨"sa-3", "Opaque", []⟩]
      [⟨"sa-1", "Opaque", []⟩, ⟨"sa-2", "Opaque", []⟩, ⟨"sa-3", "Opaque", []⟩]
      "sa-9" "sa" "tok" []).outcome = .fatal (.cleanupFailed 500 "sa-2") := by
  constructor
  · exact (c2_amended_cleanup_failure_aborts).1
      (fun n => if n == "sa-2" then some 500 else none)
      [⟨"sa-1", "Opaque", []⟩] ⟨"sa-2", "Opaque", []⟩ [⟨"sa-3", "Opaque", []⟩]
      [⟨"sa-1", "Opaque", []⟩, ⟨"sa-2", "Opaque", []⟩, ⟨"sa-3", "Opaque", []⟩]
      [] 500 (by rfl) (by rfl)
  · exact (c2_amended_cleanup_failure_aborts).2
      [("PLUGIN_DELETE_K8S_SECRETS", "true")]
      (fun n => if n == "sa-2" then some 500 else none)
      [⟨"sa-1", "Opaque", []⟩, ⟨"sa-2", "Opaque", []⟩, ⟨"sa-3", "Opaque", []⟩]
      [⟨"sa-1", "Opaque", []⟩, ⟨"sa-2", "Opaque", []⟩, ⟨"sa-3", "Opaque", []⟩]
      "sa-9" "sa" "tok" [] 500 "sa-2" (by decide) (by decide)

/-- C9 counterexample — a successful run through the already-exists
conflict path CAN delete the cluster secret backing the published token:
with service account `sa`, timestamp 1, and a pre-existing (hence
discovered) secret `sa-1`, issuance hits the 409 path and reuses `sa-1`;
after a successful publish, cleanup deletes the discovered `sa-1` — the
secret whose token was just published — leaving the cluster empty while the
run reports success. -/
theorem c9_counterexample_conflict_path_token_deleted :
    (mainRun [("PLUGIN_SERVICE_ACCOUNT_NAME", "sa"),
        ("PLUGIN_HARNESS_ACCOUNT", "acct"), ("PLUGIN_HARNESS_ORG", ""),
        ("PLUGIN_HARNESS_PROJECT", ""), ("PLUGIN_HARNESS_PLATFORM_API_KEY", "key"),
        ("PLUGIN_DELETE_K8S_SECRETS", "true")] 1
      [⟨"sa-1", "kubernetes.io/service-account-token", ["token"]⟩]
      (fun _ => some "tok") ⟨200, .noMessage, 200⟩ none none
      (fun _ => none)).outcome =
      .success [("created_token", "sa-1"), ("updated_secret", "sa")]
        [("token", "tok")] ∧
    (mainRun [("PLUGIN_SERVICE_ACCOUNT_NAME", "sa"),
        ("PLUGIN_HARNESS_ACCOUNT", "acct"), ("PLUGIN_HARNESS_ORG", ""),
        ("PLUGIN_HARNESS_PROJECT", ""), ("PLUGIN_HARNESS_PLATFORM_API_KEY", "key"),
        ("PLUGIN_DELETE_K8S_SECRETS", "true")] 1
      [⟨"sa-1", "kubernetes.io/service-account-token", ["token"]⟩]
      (fun _ => some "tok") ⟨200, .noMessage, 200⟩ none none
      (fun _ => none)).cluster = [] ∧
    Event.deleteSecret "sa-1" ∈
      (mainRun [("PLUGIN_SERVICE_ACCOUNT_NAME", "sa"),
          ("PLUGIN_HARNESS_ACCOUNT", "acct"), ("PLUGIN_HARNESS_ORG", ""),
          ("PLUGIN_HARNESS_PROJECT", ""), ("PLUGIN_HARNESS_PLATFORM_API_KEY", "key"),
          ("PLUGIN_DELETE_K8S_SECRETS", "true")] 1
        [⟨"sa-1", "kubernetes.io/service-account-token", ["token"]⟩]
        (fun _ => some "tok") ⟨200, .noMessage, 200⟩ none none
        (fun _ => none)).events := by
  refine ⟨by decide, by decide, by decide⟩

/-- Deleting only secrets whose names differ from `nm` preserves the
presence of `nm` in the cluster. -/
theorem cleanupLoop_preserves_other (flt : String → Option Nat) :
    ∀ (toDel cluster : List SecretInfo) (acc : List Event) (nm : String),
      (∀ s ∈ toDel, (s.name == nm) = false) →
      cluster.any (fun s2 => s2.name == nm) = true →
      (cleanupLoop flt toDel cluster acc).cluster.any
        (fun s2 => s2.name == nm) = true := by
  intro toDel
  induction toDel with
  | nil => intro cluster acc nm _ hany; exact hany
  | cons s rest ih =>
    intro cluster acc nm hne hany
    simp only [cleanupLoop]
    cases hd : delete_k8s_secret flt cluster s.name with
    | error st => exact hany
    | ok c2 =>
      apply ih c2 _ nm (fun x hx => hne x (List.mem_cons_of_mem _ hx))
      have hc2 : c2 = cluster.filter (fun x => !(x.name == s.name)) := by
        unfold delete_k8s_secret at hd
        cases hf : flt s.name with
        | some st2 => rw [hf] at hd; simp at hd
        | none =>
          rw [hf] at hd
          by_cases hex : cluster.any (fun x => x.name == s.name) = true
          · rw [if_pos hex] at hd
            injection hd with h2
            exact h2.symm
          · rw [if_neg hex] at hd
            simp at hd
      subst hc2
      obtain ⟨x, hx, hxnm⟩ := List.any_eq_true.mp hany
      apply List.any_eq_true.mpr
      refine ⟨x, List.mem_filter.mpr ⟨hx, ?_⟩, hxnm⟩
      have hxeq : x.name = nm := eq_of_beq hxnm
      have hsne : s.name ≠ nm := by
        intro hcontra
        have : (s.name == nm) = true := by rw [hcontra]; simp
        rw [hne s (List.mem_cons_self s rest)] at this
        simp at this
      have : (x.name == s.name) = false := by
        apply beq_eq_false_iff_ne.mpr
        rw [hxeq]
        exact fun h2 => hsne h2.symm
      rw [this]
      rfl

/-- C9 amended — On a successful run, Cleanup deletes exactly the secrets
discovered in step 1; whenever the derived token name was NOT already
present at discovery (issuance actually created a fresh secret), the
cluster secret backing the published token still exists at the end.  (When
the derived name collides with a discovered secret — the conflict path of
the counterexample — that very secret is deleted.) -/
theorem c9_amended_fresh_token_survives (env : Env) (ts : Nat)
    (cluster0 : List SecretInfo) (poll : Nat → Option String)
    (remote : RemoteBehavior) (createFault : Option Nat)
    (deleteFault : String → Option Nat) (cfg : Config)
    (outs souts : List (String × String))
    (hcfg : resolveConfig env = .ok cfg)
    (hfresh : cluster0.any
      (fun s => s.name == tokenName cfg.serviceAccountName ts) = false)
    (hsucc : (mainRun env ts cluster0 poll remote none createFault
      deleteFault).outcome = .success outs souts) :
    (mainRun env ts cluster0 poll remote none createFault deleteFault).cluster.any
      (fun s => s.name == tokenName cfg.serviceAccountName ts) = true := by
  cases hres : (issueOf cfg ts cluster0 poll createFault).result with
  | error e =>
    rw [mainRun_eq_issueError env ts cluster0 poll remote createFault deleteFault
      cfg e hcfg hres] at hsucc
    simp at hsucc
  | ok token =>
    have hcf : createFault = none := by
      cases createFault with
      | none => rfl
      | some st => simp [issueOf, create_service_account_token] at hres
    subst hcf
    have hcl1 : cluster1Of cfg ts cluster0 none =
        cluster0 ++ [⟨tokenName cfg.serviceAccountName ts,
          "kubernetes.io/service-account-token", []⟩] := by
      simp [cluster1Of, hfresh]
    have hcl1any : (cluster1Of cfg ts cluster0 none).any
        (fun s => s.name == tokenName cfg.serviceAccountName ts) = true := by
      rw [hcl1]
      simp
    rcases update_harness_secret_shape env remote cfg.secretIdentifier with
      ⟨v, hup⟩ | hup | ⟨e, hup⟩ | hup | ⟨e, hup⟩
    · have hpub1 : (update_harness_secret env remote cfg.secretIdentifier).1 =
          .configExit v := by rw [hup]
      rw [mainRun_eq_pubConfigExit env ts cluster0 poll remote none deleteFault
        cfg token v hcfg hres hpub1] at hsucc
      simp at hsucc
    · have hpub1 : (update_harness_secret env remote cfg.secretIdentifier).1 =
          .ok := by rw [hup]
      rw [mainRun_eq_pubOk env ts cluster0 poll remote none deleteFault
        cfg token hcfg hres hpub1] at hsucc ⊢
      by_cases hflag : deleteFlag env = ""
      · simpa [cleanupStage, hflag] using hcl1any
      · cases herr : (cleanupLoop deleteFault
            (list_k8s_secrets cluster0 cfg.serviceAccountName)
            (cluster1Of cfg ts cluster0 none) []).err with
        | some p =>
          obtain ⟨st, n⟩ := p
          simp [cleanupStage, hflag, herr] at hsucc
        | none =>
          simp only [cleanupStage, hflag, herr, if_neg, not_false_iff]
          apply cleanupLoop_preserves_other
          · intro s hs
            simp only [list_k8s_secrets, List.mem_filter] at hs
            cases hb : (s.name == tokenName cfg.serviceAccountName ts) with
            | false => rfl
            | true =>
              have hany0 : cluster0.any
                  (fun x => x.name == tokenName cfg.serviceAccountName ts) = true :=
                List.any_eq_true.mpr ⟨s, hs.1, hb⟩
              rw [hfresh] at hany0
              simp at hany0
          · exact hcl1any
    · have hpub1 : (update_harness_secret env remote cfg.secretIdentifier).1 =
          .raised e := by rw [hup]
      rw [mainRun_eq_pubRaised env ts cluster0 poll remote none deleteFault
        cfg token e hcfg hres hpub1] at hsucc
      simp at hsucc
    · have hpub1 : (update_harness_secret env remote cfg.secretIdentifier).1 =
          .ok := by rw [hup]
      rw [mainRun_eq_pubOk env ts cluster0 poll remote none deleteFault
        cfg token hcfg hres hpub1] at hsucc ⊢
      by_cases hflag : deleteFlag env = ""
      · simpa [cleanupStage, hflag] using hcl1any
      · cases herr : (cleanupLoop deleteFault
            (list_k8s_secrets cluster0 cfg.serviceAccountName)
            (cluster1Of cfg ts cluster0 none) []).err with
        | some p =>
          obtain ⟨st, n⟩ := p
          simp [cleanupStage, hflag, herr] at hsucc
        | none =>
          simp only [cleanupStage, hflag, herr, if_neg, not_false_iff]
          apply cleanupLoop_preserves_other
          · intro s hs
            simp only [list_k8s_secrets, List.mem_filter] at hs
            cases hb : (s.name == tokenName cfg.serviceAccountName ts) with
            | false => rfl
            | true =>
              have hany0 : cluster0.any
                  (fun x => x.name == tokenName cfg.serviceAccountName ts) = true :=
                List.any_eq_true.mpr ⟨s, hs.1, hb⟩
              rw [hfresh] at hany0
              simp at hany0
          · exact hcl1any
    · have hpub1 : (update_harness_secret env remote cfg.secretIdentifier).1 =
          .raised e := by rw [hup]
      rw [mainRun_eq_pubRaised env ts cluster0 poll remote none deleteFault
        cfg token e hcfg hres hpub1] at hsucc
      simp at hsucc

/-- C9 amended witness: a fresh-name success run (service account `sa`,
timestamp 9, stale secret `sa-1` discovered and deleted) ends with the new
token secret `sa-9` still in the cluster. -/
theorem c9_amended_fresh_token_survives_witness :
    (mainRun [("PLUGIN_SERVICE_ACCOUNT_NAME", "sa"),
        ("PLUGIN_HARNESS_ACCOUNT", "acct"), ("PLUGIN_HARNESS_ORG", ""),
        ("PLUGIN_HARNESS_PROJECT", ""), ("PLUGIN_HARNESS_PLATFORM_API_KEY", "key"),
        ("PLUGIN_DELETE_K8S_SECRETS", "true")] 9 [⟨"sa-1", "Opaque", []⟩]
      (fun _ => some "tok") ⟨200, .noMessage, 200⟩ none none
      (fun _ => none)).cluster.any (fun s => s.name == tokenName "sa" 9) = true :=
  c9_amended_fresh_token_survives [("PLUGIN_SERVICE_ACCOUNT_NAME", "sa"),
      ("PLUGIN_HARNESS_ACCOUNT", "acct"), ("PLUGIN_HARNESS_ORG", ""),
      ("PLUGIN_HARNESS_PROJECT", ""), ("PLUGIN_HARNESS_PLATFORM_API_KEY", "key"),
      ("PLUGIN_DELETE_K8S_SECRETS", "true")] 9 [⟨"sa-1", "Opaque", []⟩]
    (fun _ => some "tok") ⟨200, .noMessage, 200⟩ none (fun _ => none)
    ⟨"harness-delegate-ng", "sa", "acct", "", "", "sa", "\x7b\x7d"⟩
    [("created_token", "sa-9"), ("updated_secret", "sa")] [("token", "tok")]
    (by rfl) (by decide) (by decide)
